import Mathlib

/-
  Verification development for the Mattermost-API client SDK
  (resource modules: Teams, Uploads (users), Posts, Bookmarks, Plugins,
  DataRetention).

  Each public resource method of the repository is embedded as a Lean
  function from the builder state (and the method arguments) to the
  post-call state together with the dispatched request, or a raised
  Python error.  The shared `Mattermost_Base` class is not among the
  repository sources; its behaviour is modelled from the specification
  (section 4.1) and each such definition is marked
  `Modelled from the spec:`.
-/

/-- A staged JSON value: the Python values the resource methods pass to
`add_to_json` (strings, integers, booleans, lists of strings, opaque
dict payloads are carried as any of these, and `None`, which JSON
serialisation turns into `null`). -/
inductive Val where
  | vnull : Val
  | vs : String → Val
  | vi : Int → Val
  | vb : Bool → Val
  | vls : List String → Val
deriving DecidableEq, Repr

/-- Encoding of a Python `str`-or-`None` value as a staged JSON value:
`None` serialises to `null`. -/
def Val.ofo : Option String → Val
  | none => Val.vnull
  | some s => Val.vs s

/-- The request handed to the HTTP layer by `Base.request`: target URL,
verb string, the body/files dispatch flags and the staged per-call
state consumed by the call. -/
structure Request where
  url : String
  request_type : String
  body : Bool
  files : Bool
  json_fields : List (String × Val)
  headers : List (String × String)
  file_parts : List (String × String)
deriving DecidableEq, Repr

/-- Modelled from the spec: the per-instance state of the shared
RequestBuilder base (`Mattermost_Base`, absent from the sources):
immutable credentials (`token`, `base_url`), the module URL `api_url`
set by each resource module constructor, and the mutable per-call
request state (staged JSON fields, headers and multipart parts). -/
structure Base where
  token : String
  base_url : String
  api_url : String
  json_fields : List (String × Val)
  headers : List (String × String)
  file_parts : List (String × String)
deriving DecidableEq, Repr

/-- Modelled from the spec: construction from an authentication token
and a server base URL, with empty per-call state.  The spec leaves the
exact URL prefix to the server, so the stored base URL is the given
`server_url` verbatim. -/
def Base.make (token server_url : String) : Base :=
  { token := token, base_url := server_url, api_url := server_url,
    json_fields := [], headers := [], file_parts := [] }

/-- Modelled from the spec: `reset()` clears staged fields, headers and
file parts; credentials and URLs are untouched. -/
def Base.reset (st : Base) : Base :=
  { st with json_fields := [], headers := [], file_parts := [] }

/-- Modelled from the spec: `add_application_json_header()` marks the
pending call as JSON-bodied (`Content-Type: application/json`) and
attaches the bearer `Authorization` header derived from the token. -/
def Base.add_application_json_header (st : Base) : Base :=
  { st with headers := st.headers ++
      [("Content-Type", "application/json"),
       ("Authorization", "Bearer " ++ st.token)] }

/-- Modelled from the spec: `add_to_json(key, value)` stages a field
into the pending JSON body.  Staging records fields in order; at
serialisation the last write for a key wins (`lookupLast` below). -/
def Base.add_to_json (st : Base) (key : String) (value : Val) : Base :=
  { st with json_fields := st.json_fields ++ [(key, value)] }

/-- Modelled from the spec: `add_multipart_form_data()` marks the
pending call as multipart (`Content-Type: multipart/form-data`). -/
def Base.add_multipart_form_data (st : Base) : Base :=
  { st with headers := st.headers ++ [("Content-Type", "multipart/form-data")] }

/-- Modelled from the spec: the `add_application_multipart_form_data_header`
operation called by `set_user_profile_image`; the spec names the
multipart-mode staging operation `add_multipart_form_data`, with the
same effect. -/
def Base.add_application_multipart_form_data_header (st : Base) : Base :=
  Base.add_multipart_form_data st

/-- Modelled from the spec: `add_file(path)` stages a file for a
multipart request; the part is recorded under the name `file`. -/
def Base.add_file (st : Base) (file_path : String) : Base :=
  { st with file_parts := st.file_parts ++ [("file", file_path)] }

/-- Modelled from the spec: `add_to_multipart_form_data(name, value)`
stages a form field for a multipart request. -/
def Base.add_to_multipart_form_data (st : Base) (name value : String) : Base :=
  { st with file_parts := st.file_parts ++ [(name, value)] }

/-- Modelled from the spec: `request(url, request_type, body, files)`
maps `request_type ∈ {GET, POST, PUT, PATCH, DEL}` to the HTTP method
and performs the call, consuming the staged state; an unknown verb hits
the error branch. -/
def Base.request (st : Base) (url request_type : String) (body files : Bool) :
    Except String Request :=
  if request_type = "GET" ∨ request_type = "POST" ∨ request_type = "PUT" ∨
      request_type = "PATCH" ∨ request_type = "DEL" then
    Except.ok { url := url, request_type := request_type, body := body,
                files := files, json_fields := st.json_fields,
                headers := st.headers, file_parts := st.file_parts }
  else
    Except.error "unknown request type"

/-- The guarded staging pattern `if x is not None: self.add_to_json(k, x)`
shared by the resource methods; the value encoding (`Option.map Val.vs`
and so on) is applied by the caller. -/
def Base.stageOpt (st : Base) (key : String) (value : Option Val) : Base :=
  match value with
  | some v => st.add_to_json key v
  | none => st

/-- The guarded pattern `if image is not None: self.add_file(file_path=image)`
of `sets_team_icon`. -/
def Base.stageOptFile (st : Base) (value : Option String) : Base :=
  match value with
  | some p => st.add_file p
  | none => st

/-! ### Teams resource module (`mm_teams_api.py`)

Python parameters that a caller may pass as `None` and that the method
stages only under an `is not None` guard are embedded as `Option`
arguments; parameters annotated `str` but staged unconditionally (so
that an explicit `None` is staged and serialises to JSON `null`) are
embedded as `Option String` staged through `Val.ofo`.  Required
path/payload arguments are plain values. -/

/-- `Teams.__init__`: `api_url = f"{base_url}/teams"`. -/
def Teams.init (token server_url : String) : Base :=
  let st := Base.make token server_url
  { st with api_url := st.base_url ++ "/teams" }

/-- `Teams.create_team`. -/
def Teams.create_team (st : Base) (name display_name t_type : String) :
    Base × Except String Request :=
  let url := st.api_url
  let st := st.reset
  let st := st.add_application_json_header
  let st := st.add_to_json "name" (Val.vs name)
  let st := st.add_to_json "display_name" (Val.vs display_name)
  let st := st.add_to_json "type" (Val.vs t_type)
  (st, st.request url "POST" true false)

/-- `Teams.get_teams`. -/
def Teams.get_teams (st : Base) (page per_page : Option Int)
    (include_total_count exclude_policy_constrained : Option Bool) :
    Base × Except String Request :=
  let url := st.api_url
  let st := st.reset
  let st := st.add_application_json_header
  let st := st.stageOpt "page" (page.map Val.vi)
  let st := st.stageOpt "per_page" (per_page.map Val.vi)
  let st := st.stageOpt "include_total_count" (include_total_count.map Val.vb)
  let st := st.stageOpt "exclude_policy_constrained" (exclude_policy_constrained.map Val.vb)
  (st, st.request url "GET" true false)

/-- `Teams.get_team`. -/
def Teams.get_team (st : Base) (team_id : String) :
    Base × Except String Request :=
  let url := st.api_url ++ "/" ++ team_id
  let st := st.reset
  (st, st.request url "GET" false false)

/-- `Teams.update_team`: all seven body fields staged unconditionally. -/
def Teams.update_team (st : Base) (team_id : String)
    (id display_name description company_name allowed_domains invite_id
      allow_open_invite : Option String) :
    Base × Except String Request :=
  let url := st.api_url ++ "/" ++ team_id
  let st := st.reset
  let st := st.add_application_json_header
  let st := st.add_to_json "id" (Val.ofo id)
  let st := st.add_to_json "display_name" (Val.ofo display_name)
  let st := st.add_to_json "description" (Val.ofo description)
  let st := st.add_to_json "company_name" (Val.ofo company_name)
  let st := st.add_to_json "allowed_domains" (Val.ofo allowed_domains)
  let st := st.add_to_json "invite_id" (Val.ofo invite_id)
  let st := st.add_to_json "allow_open_invite" (Val.ofo allow_open_invite)
  (st, st.request url "PUT" true false)

/-- `Teams.delete_team`. -/
def Teams.delete_team (st : Base) (team_id : String) (permanent : Option Bool) :
    Base × Except String Request :=
  let url := st.api_url ++ "/" ++ team_id
  let st := st.reset
  let st := st.add_application_json_header
  let st := st.stageOpt "permanent" (permanent.map Val.vb)
  (st, st.request url "DEL" true false)

/-- `Teams.patch_team` (parameters have no default; every field is
guarded by its own `is not None` check). -/
def Teams.patch_team (st : Base) (team_id : String)
    (display_name description company_name invite_id : Option String)
    (allow_open_invite : Option Bool) :
    Base × Except String Request :=
  let url := st.api_url ++ "/" ++ team_id ++ "/patch"
  let st := st.reset
  let st := st.add_application_json_header
  let st := st.stageOpt "display_name" (display_name.map Val.vs)
  let st := st.stageOpt "description" (description.map Val.vs)
  let st := st.stageOpt "company_name" (company_name.map Val.vs)
  let st := st.stageOpt "invite_id" (invite_id.map Val.vs)
  let st := st.stageOpt "allow_open_invite" (allow_open_invite.map Val.vb)
  (st, st.request url "PUT" true false)

/-- `Teams.update_team_privacy`. -/
def Teams.update_team_privacy (st : Base) (team_id privacy : String) :
    Base × Except String Request :=
  let url := st.api_url ++ "/" ++ team_id ++ "/privacy"
  let st := st.reset
  let st := st.add_application_json_header
  let st := st.add_to_json "privacy" (Val.vs privacy)
  (st, st.request url "PUT" true false)

/-- `Teams.restore_team`. -/
def Teams.restore_team (st : Base) (team_id : String) :
    Base × Except String Request :=
  let url := st.api_url ++ "/" ++ team_id ++ "/restore"
  let st := st.reset
  let st := st.add_application_json_header
  (st, st.request url "POST" false false)

/-- `Teams.get_team_by_name`. -/
def Teams.get_team_by_name (st : Base) (name : String) :
    Base × Except String Request :=
  let url := st.api_url ++ "/name/" ++ name
  let st := st.reset
  let st := st.add_application_json_header
  (st, st.request url "GET" false false)

/-- `Teams.search_teams` (`term`, `page`, `per_page` are annotated `str`). -/
def Teams.search_teams (st : Base) (term page per_page : Option String)
    (allow_open_invite group_constrained exclude_policy_constrained : Option Bool) :
    Base × Except String Request :=
  let url := st.api_url ++ "/search"
  let st := st.reset
  let st := st.add_application_json_header
  let st := st.stageOpt "term" (term.map Val.vs)
  let st := st.stageOpt "page" (page.map Val.vs)
  let st := st.stageOpt "per_page" (per_page.map Val.vs)
  let st := st.stageOpt "allow_open_invite" (allow_open_invite.map Val.vb)
  let st := st.stageOpt "group_constrained" (group_constrained.map Val.vb)
  let st := st.stageOpt "exclude_policy_constrained" (exclude_policy_constrained.map Val.vb)
  (st, st.request url "POST" true false)

/-- `Teams.check_if_team_exists`. -/
def Teams.check_if_team_exists (st : Base) (name : String) :
    Base × Except String Request :=
  let url := st.api_url ++ "/name/" ++ name ++ "/exists"
  let st := st.reset
  (st, st.request url "GET" false false)

/-- `Teams.get_user_teams`. -/
def Teams.get_user_teams (st : Base) (user_id : String) :
    Base × Except String Request :=
  let url := st.api_url ++ "/" ++ user_id ++ "/teams"
  let st := st.reset
  (st, st.request url "GET" false false)

/-- `Teams.get_team_members`. -/
def Teams.get_team_members (st : Base) (team_id : String)
    (page per_page : Option Int) : Base × Except String Request :=
  let url := st.api_url ++ "/" ++ team_id ++ "/members"
  let st := st.reset
  let st := st.add_application_json_header
  let st := st.stageOpt "page" (page.map Val.vi)
  let st := st.stageOpt "per_page" (per_page.map Val.vi)
  (st, st.request url "GET" true false)

/-- `Teams.add_user_to_team` (`t_id` is staged under the field name
`team_id`). -/
def Teams.add_user_to_team (st : Base) (team_id : String)
    (t_id user_id : Option String) : Base × Except String Request :=
  let url := st.api_url ++ "/" ++ team_id ++ "/members"
  let st := st.reset
  let st := st.add_application_json_header
  let st := st.stageOpt "team_id" (t_id.map Val.vs)
  let st := st.stageOpt "user_id" (user_id.map Val.vs)
  (st, st.request url "POST" true false)

/-- `Teams.add_user_to_team_from_invite`. -/
def Teams.add_user_to_team_from_invite (st : Base) (token : String) :
    Base × Except String Request :=
  let url := st.api_url ++ "/members/invite"
  let st := st.reset
  let st := st.add_application_json_header
  let st := st.add_to_json "token" (Val.vs token)
  (st, st.request url "GET" true false)

/-- `Teams.add_multiple_users_to_team` (`t_id` is staged as `team_id`). -/
def Teams.add_multiple_users_to_team (st : Base) (team_id : String)
    (graceful : Option Bool) (t_id user_id roles : Option String)
    (delete_at : Option Int) (scheme_user scheme_admin : Option Bool)
    (explicit_roles : Option String) : Base × Except String Request :=
  let url := st.api_url ++ "/" ++ team_id ++ "/members/batch"
  let st := st.reset
  let st := st.add_application_json_header
  let st := st.stageOpt "graceful" (graceful.map Val.vb)
  let st := st.stageOpt "team_id" (t_id.map Val.vs)
  let st := st.stageOpt "user_id" (user_id.map Val.vs)
  let st := st.stageOpt "roles" (roles.map Val.vs)
  let st := st.stageOpt "delete_at" (delete_at.map Val.vi)
  let st := st.stageOpt "scheme_user" (scheme_user.map Val.vb)
  let st := st.stageOpt "scheme_admin" (scheme_admin.map Val.vb)
  let st := st.stageOpt "explicit_roles" (explicit_roles.map Val.vs)
  (st, st.request url "POST" true false)

/-- `Teams.get_team_members_for_user` (note the trailing slash in the
source URL). -/
def Teams.get_team_members_for_user (st : Base) (user_id : String) :
    Base × Except String Request :=
  let url := st.api_url ++ "/" ++ user_id ++ "/teams/members/"
  let st := st.reset
  (st, st.request url "GET" false false)

/-- `Teams.get_team_member`. -/
def Teams.get_team_member (st : Base) (team_id user_id : String) :
    Base × Except String Request :=
  let url := st.api_url ++ "/" ++ team_id ++ "/members/" ++ user_id
  let st := st.reset
  (st, st.request url "GET" false false)

/-- `Teams.remove_user_from_team`. -/
def Teams.remove_user_from_team (st : Base) (team_id user_id : String) :
    Base × Except String Request :=
  let url := st.api_url ++ "/" ++ team_id ++ "/members/" ++ user_id
  let st := st.reset
  (st, st.request url "DEL" false false)

/-- `Teams.get_team_members_by_ids` (`user_ids` has no default but is
staged under an `is not None` guard). -/
def Teams.get_team_members_by_ids (st : Base) (team_id : String)
    (user_ids : Option (List String)) : Base × Except String Request :=
  let url := st.api_url ++ "/" ++ team_id ++ "/members/ids"
  let st := st.reset
  let st := st.add_application_json_header
  let st := st.stageOpt "user_ids" (user_ids.map Val.vls)
  (st, st.request url "POST" true false)

/-- `Teams.get_team_stats`. -/
def Teams.get_team_stats (st : Base) (team_id : String) :
    Base × Except String Request :=
  let url := st.api_url ++ "/" ++ team_id ++ "/stats"
  let st := st.reset
  (st, st.request url "GET" false false)

/-- `Teams.regenerate_invite_id_from_team`. -/
def Teams.regenerate_invite_id_from_team (st : Base) (team_id : String) :
    Base × Except String Request :=
  let url := st.api_url ++ "/" ++ team_id ++ "/regenerate_invite_id"
  let st := st.reset
  (st, st.request url "POST" false false)

/-- `Teams.get_team_icon`. -/
def Teams.get_team_icon (st : Base) (team_id : String) :
    Base × Except String Request :=
  let url := st.api_url ++ "/" ++ team_id ++ "/image"
  let st := st.reset
  (st, st.request url "GET" false false)

/-- `Teams.sets_team_icon`: multipart staging, dispatched with the
`files` flag. -/
def Teams.sets_team_icon (st : Base) (team_id : String)
    (image : Option String) : Base × Except String Request :=
  let url := st.api_url ++ "/" ++ team_id ++ "/image"
  let st := st.reset
  let st := st.add_multipart_form_data
  let st := st.stageOptFile image
  (st, st.request url "POST" false true)

/-- `Teams.remove_team_icon`. -/
def Teams.remove_team_icon (st : Base) (team_id : String) :
    Base × Except String Request :=
  let url := st.api_url ++ "/" ++ team_id ++ "/image"
  let st := st.reset
  (st, st.request url "DEL" false false)

/-- `Teams.update_team_member_roles` (`roles` has no default but is
staged under an `is not None` guard). -/
def Teams.update_team_member_roles (st : Base) (team_id user_id : String)
    (roles : Option String) : Base × Except String Request :=
  let url := st.api_url ++ "/" ++ team_id ++ "/members/" ++ user_id ++ "/roles"
  let st := st.reset
  let st := st.add_application_json_header
  let st := st.stageOpt "roles" (roles.map Val.vs)
  (st, st.request url "PUT" true false)

/-- `Teams.update_scheme_derived_roles_of_team_member`. -/
def Teams.update_scheme_derived_roles_of_team_member (st : Base)
    (team_id user_id : String) (scheme_admin scheme_user : Option Bool) :
    Base × Except String Request :=
  let url := st.api_url ++ "/" ++ team_id ++ "/members/" ++ user_id ++ "/schemeRoles"
  let st := st.reset
  let st := st.add_application_json_header
  let st := st.stageOpt "scheme_admin" (scheme_admin.map Val.vb)
  let st := st.stageOpt "scheme_user" (scheme_user.map Val.vb)
  (st, st.request url "PUT" true false)

/-- `Teams.get_team_unread_for_user`: `exclude_team` is staged
unconditionally (an explicit `None` is staged as JSON `null`); the URL
is built from `base_url`. -/
def Teams.get_team_unread_for_user (st : Base) (user_id : String)
    (exclude_team : Option String) (include_collapsed_threads : Option Bool) :
    Base × Except String Request :=
  let url := st.base_url ++ "/users/" ++ user_id ++ "/teams/unread"
  let st := st.reset
  let st := st.add_application_json_header
  let st := st.add_to_json "exclude_team" (Val.ofo exclude_team)
  let st := st.stageOpt "include_collapsed_threads" (include_collapsed_threads.map Val.vb)
  (st, st.request url "GET" true false)

/-- `Teams.get_unread_for_team` (URL built from `base_url`). -/
def Teams.get_unread_for_team (st : Base) (user_id team_id : String) :
    Base × Except String Request :=
  let url := st.base_url ++ "/users/" ++ user_id ++ "/teams/" ++ team_id ++ "/unread"
  let st := st.reset
  (st, st.request url "GET" false false)

/-- `Teams.invite_users_to_team_by_email`. -/
def Teams.invite_users_to_team_by_email (st : Base) (team_id : String)
    (user_email : Option (List String)) : Base × Except String Request :=
  let url := st.api_url ++ "/" ++ team_id ++ "/invite/email"
  let st := st.reset
  let st := st.add_application_json_header
  let st := st.stageOpt "user_email" (user_email.map Val.vls)
  (st, st.request url "POST" true false)

/-- `Teams.invite_guests_to_team_by_email`. -/
def Teams.invite_guests_to_team_by_email (st : Base) (team_id : String)
    (emails channels : List String) (message : Option String) :
    Base × Except String Request :=
  let url := st.api_url ++ "/" ++ team_id ++ "/invite-guests/email"
  let st := st.reset
  let st := st.add_application_json_header
  let st := st.add_to_json "emails" (Val.vls emails)
  let st := st.add_to_json "channels" (Val.vls channels)
  let st := st.stageOpt "message" (message.map Val.vs)
  (st, st.request url "POST" true false)

/-- `Teams.invalidate_active_email_invitations`. -/
def Teams.invalidate_active_email_invitations (st : Base) :
    Base × Except String Request :=
  let url := st.api_url ++ "/invites/email"
  let st := st.reset
  (st, st.request url "DEL" false false)

/-- `Teams.import_team_from_other_application`. -/
def Teams.import_team_from_other_application (st : Base) (team_id : String)
    (file : String) (filesize : Int) (importFrom : String) :
    Base × Except String Request :=
  let url := st.api_url ++ "/" ++ team_id ++ "/import"
  let st := st.reset
  let st := st.add_application_json_header
  let st := st.add_to_json "file" (Val.vs file)
  let st := st.add_to_json "filesize" (Val.vi filesize)
  let st := st.add_to_json "importFrom" (Val.vs importFrom)
  (st, st.request url "POST" true false)

/-- `Teams.get_invite_info_for_team`. -/
def Teams.get_invite_info_for_team (st : Base) (invite_id : String) :
    Base × Except String Request :=
  let url := st.api_url ++ "/invite/" ++ invite_id
  let st := st.reset
  (st, st.request url "GET" false false)

/-- `Teams.set_team_scheme`. -/
def Teams.set_team_scheme (st : Base) (team_id scheme_id : String) :
    Base × Except String Request :=
  let url := st.api_url ++ "/" ++ team_id ++ "/scheme"
  let st := st.reset
  let st := st.add_application_json_header
  let st := st.add_to_json "scheme_id" (Val.vs scheme_id)
  (st, st.request url "PUT" true false)

/-- `Teams.team_members_minus_group_members`. -/
def Teams.team_members_minus_group_members (st : Base) (team_id : String)
    (group_ids : String) (page per_page : Option Int) :
    Base × Except String Request :=
  let url := st.api_url ++ "/" ++ team_id ++ "/members_minus_group_members"
  let st := st.reset
  let st := st.add_application_json_header
  let st := st.add_to_json "group_ids" (Val.vs group_ids)
  let st := st.stageOpt "page" (page.map Val.vi)
  let st := st.stageOpt "per_page" (per_page.map Val.vi)
  (st, st.request url "GET" true false)

/-- `Teams.search_files_in_team`. -/
def Teams.search_files_in_team (st : Base) (team_id : String)
    (terms : String) (is_or_search : Bool) (time_zone_offset : Option Int)
    (include_deleted_channels : Option Bool) (page per_page : Option Int) :
    Base × Except String Request :=
  let url := st.api_url ++ "/" ++ team_id ++ "/files/search"
  let st := st.reset
  let st := st.add_application_json_header
  let st := st.add_to_json "terms" (Val.vs terms)
  let st := st.add_to_json "is_or_search" (Val.vb is_or_search)
  let st := st.stageOpt "time_zone_offset" (time_zone_offset.map Val.vi)
  let st := st.stageOpt "include_deleted_channels" (include_deleted_channels.map Val.vb)
  let st := st.stageOpt "page" (page.map Val.vi)
  let st := st.stageOpt "per_page" (per_page.map Val.vi)
  (st, st.request url "POST" true false)

/-! ### Users resource module (`mm_users_api.py`, class `Uploads`) -/

/-- `Uploads.__init__`: `api_url = f"{base_url}/users"`. -/
def Uploads.init (token server_url : String) : Base :=
  let st := Base.make token server_url
  { st with api_url := st.base_url ++ "/users" }

/-- `Uploads.login_to_mattermost_server`. -/
def Uploads.login_to_mattermost_server (st : Base)
    (id login_id token device_id ldap_only password : Option String) :
    Base × Except String Request :=
  let url := st.api_url ++ "/login"
  let st := st.reset
  let st := st.add_application_json_header
  let st := st.stageOpt "id" (id.map Val.vs)
  let st := st.stageOpt "login_id" (login_id.map Val.vs)
  let st := st.stageOpt "token" (token.map Val.vs)
  let st := st.stageOpt "device_id" (device_id.map Val.vs)
  let st := st.stageOpt "ldap_only" (ldap_only.map Val.vs)
  let st := st.stageOpt "password" (password.map Val.vs)
  (st, st.request url "POST" true false)

/-- `Uploads.autologin_to_mm_server_using_cws_token`. -/
def Uploads.autologin_to_mm_server_using_cws_token (st : Base)
    (login_id cws_token : Option String) : Base × Except String Request :=
  let url := st.api_url ++ "/login/cws"
  let st := st.reset
  let st := st.add_application_json_header
  let st := st.stageOpt "login_id" (login_id.map Val.vs)
  let st := st.stageOpt "cws_token" (cws_token.map Val.vs)
  (st, st.request url "POST" true false)

/-- `Uploads.logout_from_mm_server`. -/
def Uploads.logout_from_mm_server (st : Base) : Base × Except String Request :=
  let url := st.api_url ++ "/logout"
  let st := st.reset
  (st, st.request url "POST" false false)

/-- `Uploads.create_user` (`email` and `username` staged
unconditionally; `props` is annotated `dict` and carried as a `Val`). -/
def Uploads.create_user (st : Base) (email username : String)
    (t iid first_name last_name nickname auth_data auth_service password
      locale : Option String) (props : Option Val)
    (notify_props : Option String) : Base × Except String Request :=
  let url := st.api_url
  let st := st.reset
  let st := st.add_application_json_header
  let st := st.add_to_json "email" (Val.vs email)
  let st := st.add_to_json "username" (Val.vs username)
  let st := st.stageOpt "t" (t.map Val.vs)
  let st := st.stageOpt "iid" (iid.map Val.vs)
  let st := st.stageOpt "first_name" (first_name.map Val.vs)
  let st := st.stageOpt "last_name" (last_name.map Val.vs)
  let st := st.stageOpt "nickname" (nickname.map Val.vs)
  let st := st.stageOpt "auth_data" (auth_data.map Val.vs)
  let st := st.stageOpt "auth_service" (auth_service.map Val.vs)
  let st := st.stageOpt "password" (password.map Val.vs)
  let st := st.stageOpt "locale" (locale.map Val.vs)
  let st := st.stageOpt "props" props
  let st := st.stageOpt "notify_props" (notify_props.map Val.vs)
  (st, st.request url "POST" true false)

/-- `Uploads.get_users`. -/
def Uploads.get_users (st : Base) (page per_page : Option Int)
    (in_team not_in_team in_channel not_in_channel in_group : Option String)
    (group_constrained without_team active inactive : Option Bool)
    (role sort roles channel_roles team_roles : Option String) :
    Base × Except String Request :=
  let url := st.api_url
  let st := st.reset
  let st := st.add_application_json_header
  let st := st.stageOpt "page" (page.map Val.vi)
  let st := st.stageOpt "per_page" (per_page.map Val.vi)
  let st := st.stageOpt "in_team" (in_team.map Val.vs)
  let st := st.stageOpt "not_in_team" (not_in_team.map Val.vs)
  let st := st.stageOpt "in_channel" (in_channel.map Val.vs)
  let st := st.stageOpt "not_in_channel" (not_in_channel.map Val.vs)
  let st := st.stageOpt "in_group" (in_group.map Val.vs)
  let st := st.stageOpt "group_constrained" (group_constrained.map Val.vb)
  let st := st.stageOpt "without_team" (without_team.map Val.vb)
  let st := st.stageOpt "active" (active.map Val.vb)
  let st := st.stageOpt "inactive" (inactive.map Val.vb)
  let st := st.stageOpt "role" (role.map Val.vs)
  let st := st.stageOpt "sort" (sort.map Val.vs)
  let st := st.stageOpt "roles" (roles.map Val.vs)
  let st := st.stageOpt "channel_roles" (channel_roles.map Val.vs)
  let st := st.stageOpt "team_roles" (team_roles.map Val.vs)
  (st, st.request url "GET" true false)

/-- `Uploads.permanent_delete_all_users`. -/
def Uploads.permanent_delete_all_users (st : Base) :
    Base × Except String Request :=
  let url := st.api_url
  let st := st.reset
  (st, st.request url "DEL" false false)

/-- `Uploads.get_users_by_ids`. -/
def Uploads.get_users_by_ids (st : Base) (since : Option Int)
    (user_ids : Option (List String)) : Base × Except String Request :=
  let url := st.api_url ++ "/ids"
  let st := st.reset
  let st := st.add_application_json_header
  let st := st.stageOpt "since" (since.map Val.vi)
  let st := st.stageOpt "user_ids" (user_ids.map Val.vls)
  (st, st.request url "POST" true false)

/-- `Uploads.get_users_by_group_channels_ids`. -/
def Uploads.get_users_by_group_channels_ids (st : Base)
    (channel_ids : Option (List String)) : Base × Except String Request :=
  let url := st.api_url ++ "/group_channels"
  let st := st.reset
  let st := st.add_application_json_header
  let st := st.stageOpt "channel_ids" (channel_ids.map Val.vls)
  (st, st.request url "POST" true false)

/-- `Uploads.get_users_by_usernames`. -/
def Uploads.get_users_by_usernames (st : Base)
    (usernames : Option (List String)) : Base × Except String Request :=
  let url := st.api_url ++ "/usernames"
  let st := st.reset
  let st := st.add_application_json_header
  let st := st.stageOpt "usernames" (usernames.map Val.vls)
  (st, st.request url "POST" true false)

/-- `Uploads.search_users` (`term` staged unconditionally). -/
def Uploads.search_users (st : Base) (term : String)
    (team_id not_in_team_id in_channel_id not_in_channel_id
      in_group_id : Option String)
    (group_constrained allow_inactive without_team : Option Bool)
    (limit : Option Int) : Base × Except String Request :=
  let url := st.api_url ++ "/search"
  let st := st.reset
  let st := st.add_application_json_header
  let st := st.add_to_json "term" (Val.vs term)
  let st := st.stageOpt "team_id" (team_id.map Val.vs)
  let st := st.stageOpt "not_in_team_id" (not_in_team_id.map Val.vs)
  let st := st.stageOpt "in_channel_id" (in_channel_id.map Val.vs)
  let st := st.stageOpt "not_in_channel_id" (not_in_channel_id.map Val.vs)
  let st := st.stageOpt "in_group_id" (in_group_id.map Val.vs)
  let st := st.stageOpt "group_constrained" (group_constrained.map Val.vb)
  let st := st.stageOpt "allow_inactive" (allow_inactive.map Val.vb)
  let st := st.stageOpt "without_team" (without_team.map Val.vb)
  let st := st.stageOpt "limit" (limit.map Val.vi)
  (st, st.request url "POST" true false)

/-- `Uploads.autocomplete_users` (`name` staged unconditionally). -/
def Uploads.autocomplete_users (st : Base) (name : String)
    (team_id channel_id : Option String) (limit : Option Int) :
    Base × Except String Request :=
  let url := st.api_url ++ "/autocomplete"
  let st := st.reset
  let st := st.add_application_json_header
  let st := st.add_to_json "name" (Val.vs name)
  let st := st.stageOpt "team_id" (team_id.map Val.vs)
  let st := st.stageOpt "channel_id" (channel_id.map Val.vs)
  let st := st.stageOpt "limit" (limit.map Val.vi)
  (st, st.request url "GET" true false)

/-- `Uploads.get_user_ids_of_known_users`. -/
def Uploads.get_user_ids_of_known_users (st : Base) :
    Base × Except String Request :=
  let url := st.api_url ++ "/known"
  let st := st.reset
  (st, st.request url "GET" false false)

/-- `Uploads.get_total_count_of_users_in_the_system`. -/
def Uploads.get_total_count_of_users_in_the_system (st : Base) :
    Base × Except String Request :=
  let url := st.api_url ++ "/stats"
  let st := st.reset
  (st, st.request url "GET" false false)

/-- `Uploads.get_total_count_of_users_in_system_matching_specified_filters`. -/
def Uploads.get_total_count_of_users_in_system_matching_specified_filters
    (st : Base) (in_team in_channel : Option String)
    (include_deleted include_bots : Option Bool)
    (roles channel_roles team_roles : Option String) :
    Base × Except String Request :=
  let url := st.api_url ++ "/stats/filtered"
  let st := st.reset
  let st := st.add_application_json_header
  let st := st.stageOpt "in_team" (in_team.map Val.vs)
  let st := st.stageOpt "in_channel" (in_channel.map Val.vs)
  let st := st.stageOpt "include_deleted" (include_deleted.map Val.vb)
  let st := st.stageOpt "include_bots" (include_bots.map Val.vb)
  let st := st.stageOpt "roles" (roles.map Val.vs)
  let st := st.stageOpt "channel_roles" (channel_roles.map Val.vs)
  let st := st.stageOpt "team_roles" (team_roles.map Val.vs)
  (st, st.request url "GET" true false)

/-- `Uploads.get_user`. -/
def Uploads.get_user (st : Base) (user_id : String) :
    Base × Except String Request :=
  let url := st.api_url ++ "/" ++ user_id
  let st := st.reset
  (st, st.request url "GET" false false)

/-- `Uploads.update_user`: `id`, `email` and `username` staged
unconditionally (an explicit `None` is staged as JSON `null`);
`timezone` and `notify_props` are annotated `dict` and carried as
`Val`. -/
def Uploads.update_user (st : Base) (user_id : String)
    (id email username : Option String)
    (first_name last_name nickname locale position : Option String)
    (timezone : Option Val) (props : Option String)
    (notify_props : Option Val) : Base × Except String Request :=
  let url := st.api_url ++ "/" ++ user_id
  let st := st.reset
  let st := st.add_application_json_header
  let st := st.add_to_json "id" (Val.ofo id)
  let st := st.add_to_json "email" (Val.ofo email)
  let st := st.add_to_json "username" (Val.ofo username)
  let st := st.stageOpt "first_name" (first_name.map Val.vs)
  let st := st.stageOpt "last_name" (last_name.map Val.vs)
  let st := st.stageOpt "nickname" (nickname.map Val.vs)
  let st := st.stageOpt "locale" (locale.map Val.vs)
  let st := st.stageOpt "position" (position.map Val.vs)
  let st := st.stageOpt "timezone" timezone
  let st := st.stageOpt "props" (props.map Val.vs)
  let st := st.stageOpt "notify_props" notify_props
  (st, st.request url "PUT" true false)

/-- `Uploads.deactivate_user_account`. -/
def Uploads.deactivate_user_account (st : Base) (user_id : String) :
    Base × Except String Request :=
  let url := st.api_url ++ "/" ++ user_id
  let st := st.reset
  (st, st.request url "DEL" false false)

/-- `Uploads.patch_user`: every body field has default `None` and is
staged only under its own `is not None` guard. -/
def Uploads.patch_user (st : Base) (user_id : String)
    (email username first_name last_name nickname locale position
      props : Option String) (notify_props : Option Val) :
    Base × Except String Request :=
  let url := st.api_url ++ "/" ++ user_id ++ "/patch"
  let st := st.reset
  let st := st.add_application_json_header
  let st := st.stageOpt "email" (email.map Val.vs)
  let st := st.stageOpt "username" (username.map Val.vs)
  let st := st.stageOpt "first_name" (first_name.map Val.vs)
  let st := st.stageOpt "last_name" (last_name.map Val.vs)
  let st := st.stageOpt "nickname" (nickname.map Val.vs)
  let st := st.stageOpt "locale" (locale.map Val.vs)
  let st := st.stageOpt "position" (position.map Val.vs)
  let st := st.stageOpt "props" (props.map Val.vs)
  let st := st.stageOpt "notify_props" notify_props
  (st, st.request url "PUT" true false)

/-- `Uploads.update_user_roles` (staged unconditionally). -/
def Uploads.update_user_roles (st : Base) (user_id roles : String) :
    Base × Except String Request :=
  let url := st.api_url ++ "/" ++ user_id ++ "/roles"
  let st := st.reset
  let st := st.add_application_json_header
  let st := st.add_to_json "roles" (Val.vs roles)
  (st, st.request url "PUT" true false)

/-- `Uploads.update_user_active_status`. -/
def Uploads.update_user_active_status (st : Base) (user_id : String)
    (active : Bool) : Base × Except String Request :=
  let url := st.api_url ++ "/" ++ user_id ++ "/active"
  let st := st.reset
  let st := st.add_application_json_header
  let st := st.add_to_json "active" (Val.vb active)
  (st, st.request url "PUT" true false)

/-- `Uploads.get_user_profile_image`: the second parameter is named `_`
in the source and staged under the field name `_`. -/
def Uploads.get_user_profile_image (st : Base) (user_id : String)
    (last_pic_upd : Option String) : Base × Except String Request :=
  let url := st.api_url ++ "/" ++ user_id ++ "/image"
  let st := st.reset
  let st := st.add_application_json_header
  let st := st.stageOpt "_" (last_pic_upd.map Val.vs)
  (st, st.request url "GET" true false)

/-- `Uploads.set_user_profile_image`: stages the image as a multipart
form field, then calls `self.request(url, request_type='POST',
file=True)`.  The spec-modelled `request` signature takes `body` and
`files` only, so the unknown keyword argument `file` raises a
`TypeError` before any request is dispatched. -/
def Uploads.set_user_profile_image (st : Base) (user_id image : String) :
    Base × Except String Request :=
  let st := st.reset
  let st := st.add_application_multipart_form_data_header
  let st := st.add_to_multipart_form_data "image" image
  (st, Except.error "TypeError: request got an unexpected keyword argument file")

/-- `Uploads.delete_user_profile_image`: the source builds the URL from
`self.self.api_url`; an `Uploads` instance has no attribute `self`, so
the method raises an `AttributeError` at URL construction, before
`reset` and before any request is dispatched. -/
def Uploads.delete_user_profile_image (st : Base) (user_id : String) :
    Base × Except String Request :=
  (st, Except.error "AttributeError: Uploads object has no attribute self")

/-- `Uploads.return_user_default_profile_image`. -/
def Uploads.return_user_default_profile_image (st : Base) (user_id : String) :
    Base × Except String Request :=
  let url := st.api_url ++ "/" ++ user_id ++ "/image/default"
  let st := st.reset
  (st, st.request url "GET" false false)

/-- `Uploads.get_user_by_username`. -/
def Uploads.get_user_by_username (st : Base) (username : String) :
    Base × Except String Request :=
  let url := st.api_url ++ "/username/" ++ username
  let st := st.reset
  (st, st.request url "GET" false false)

/-- `Uploads.reset_password`. -/
def Uploads.reset_password (st : Base) (code new_password : String) :
    Base × Except String Request :=
  let url := st.api_url ++ "/password/reset"
  let st := st.reset
  let st := st.add_application_json_header
  let st := st.add_to_json "code" (Val.vs code)
  let st := st.add_to_json "new_password" (Val.vs new_password)
  (st, st.request url "POST" true false)

/-- `Uploads.update_user_mfa` (`activate` staged unconditionally). -/
def Uploads.update_user_mfa (st : Base) (user_id : String) (activate : Bool)
    (code : Option String) : Base × Except String Request :=
  let url := st.api_url ++ "/" ++ user_id ++ "/mfa"
  let st := st.reset
  let st := st.add_application_json_header
  let st := st.add_to_json "activate" (Val.vb activate)
  let st := st.stageOpt "code" (code.map Val.vs)
  (st, st.request url "PUT" true false)

/-- `Uploads.generate_mfa_secret`. -/
def Uploads.generate_mfa_secret (st : Base) (user_id : String) :
    Base × Except String Request :=
  let url := st.api_url ++ "/" ++ user_id ++ "/mfa/generate"
  let st := st.reset
  (st, st.request url "POST" false false)

/-- `Uploads.demote_user_to_guest`. -/
def Uploads.demote_user_to_guest (st : Base) (user_id : String) :
    Base × Except String Request :=
  let url := st.api_url ++ "/" ++ user_id ++ "/demote"
  let st := st.reset
  (st, st.request url "POST" false false)

/-- `Uploads.promote_guest_to_user`. -/
def Uploads.promote_guest_to_user (st : Base) (user_id : String) :
    Base × Except String Request :=
  let url := st.api_url ++ "/" ++ user_id ++ "/promote"
  let st := st.reset
  (st, st.request url "POST" false false)

/-- `Uploads.convert_user_to_bot`. -/
def Uploads.convert_user_to_bot (st : Base) (user_id : String) :
    Base × Except String Request :=
  let url := st.api_url ++ "/" ++ user_id ++ "/convert_to_bot"
  let st := st.reset
  (st, st.request url "POST" false false)

/-- `Uploads.check_mfa`. -/
def Uploads.check_mfa (st : Base) (login_id : String) :
    Base × Except String Request :=
  let url := st.api_url ++ "/mfa"
  let st := st.reset
  let st := st.add_application_json_header
  let st := st.add_to_json "login_id" (Val.vs login_id)
  (st, st.request url "POST" true false)

/-- `Uploads.update_user_password` (`new_password` staged
unconditionally). -/
def Uploads.update_user_password (st : Base) (user_id new_password : String)
    (current_password : Option String) : Base × Except String Request :=
  let url := st.api_url ++ "/" ++ user_id ++ "/password"
  let st := st.reset
  let st := st.add_application_json_header
  let st := st.add_to_json "new_password" (Val.vs new_password)
  let st := st.stageOpt "current_password" (current_password.map Val.vs)
  (st, st.request url "PUT" true false)

/-- `Uploads.send_password_reset_email`. -/
def Uploads.send_password_reset_email (st : Base) (email : String) :
    Base × Except String Request :=
  let url := st.api_url ++ "/password/reset/send"
  let st := st.reset
  let st := st.add_application_json_header
  let st := st.add_to_json "email" (Val.vs email)
  (st, st.request url "POST" true false)

/-- `Uploads.get_user_by_email`. -/
def Uploads.get_user_by_email (st : Base) (email : String) :
    Base × Except String Request :=
  let url := st.api_url ++ "/email/" ++ email
  let st := st.reset
  (st, st.request url "GET" false false)

/-- `Uploads.get_user_sessions`. -/
def Uploads.get_user_sessions (st : Base) (user_id : String) :
    Base × Except String Request :=
  let url := st.api_url ++ "/" ++ user_id ++ "/sessions"
  let st := st.reset
  (st, st.request url "GET" false false)

/-- `Uploads.revoke_user_session`. -/
def Uploads.revoke_user_session (st : Base) (user_id session_id : String) :
    Base × Except String Request :=
  let url := st.api_url ++ "/" ++ user_id ++ "/sessions/revoke"
  let st := st.reset
  let st := st.add_application_json_header
  let st := st.add_to_json "session_id" (Val.vs session_id)
  (st, st.request url "POST" true false)

/-- `Uploads.revoke_all_active_sessions_for_user`. -/
def Uploads.revoke_all_active_sessions_for_user (st : Base)
    (user_id : String) : Base × Except String Request :=
  let url := st.api_url ++ "/" ++ user_id ++ "/sessions/revoke/all"
  let st := st.reset
  (st, st.request url "POST" false false)

/-- `Uploads.attach_mobile_device`. -/
def Uploads.attach_mobile_device (st : Base) (device_id : String) :
    Base × Except String Request :=
  let url := st.api_url ++ "/sessions/device"
  let st := st.reset
  let st := st.add_application_json_header
  let st := st.add_to_json "device_id" (Val.vs device_id)
  (st, st.request url "PUT" true false)

/-- `Uploads.get_user_audits`. -/
def Uploads.get_user_audits (st : Base) (user_id : String) :
    Base × Except String Request :=
  let url := st.api_url ++ "/" ++ user_id ++ "/audits"
  let st := st.reset
  (st, st.request url "GET" false false)

/-! ### Posts resource module (`mm_posts_api.py`) -/

/-- `Posts.__init__`: `api_url = f"{base_url}/posts"`. -/
def Posts.init (token server_url : String) : Base :=
  let st := Base.make token server_url
  { st with api_url := st.base_url ++ "/posts" }

/-- `Posts.create_post` (`set_online` and `channel_id` staged
unconditionally; `props` and `metadata` are annotated `dict` and
carried as `Val`). -/
def Posts.create_post (st : Base) (set_online : Bool) (channel_id : String)
    (message root_id : Option String) (file_ids : Option (List String))
    (props metadata : Option Val) : Base × Except String Request :=
  let url := st.api_url
  let st := st.reset
  let st := st.add_application_json_header
  let st := st.add_to_json "set_online" (Val.vb set_online)
  let st := st.add_to_json "channel_id" (Val.vs channel_id)
  let st := st.stageOpt "message" (message.map Val.vs)
  let st := st.stageOpt "root_id" (root_id.map Val.vs)
  let st := st.stageOpt "file_ids" (file_ids.map Val.vls)
  let st := st.stageOpt "props" props
  let st := st.stageOpt "metadata" metadata
  (st, st.request url "POST" true false)

/-- `Posts.create_ephemeral_post` (`post` is annotated `dict`). -/
def Posts.create_ephemeral_post (st : Base) (user_id : String) (post : Val) :
    Base × Except String Request :=
  let url := st.api_url ++ "/ephemeral"
  let st := st.reset
  let st := st.add_application_json_header
  let st := st.add_to_json "user_id" (Val.vs user_id)
  let st := st.add_to_json "post" post
  (st, st.request url "POST" true false)

/-- `Posts.get_post` (`include_deleted` has no default but is staged
under an `is not None` guard). -/
def Posts.get_post (st : Base) (post_id : String)
    (include_deleted : Option Bool) : Base × Except String Request :=
  let url := st.api_url ++ "/" ++ post_id
  let st := st.reset
  let st := st.add_application_json_header
  let st := st.stageOpt "include_deleted" (include_deleted.map Val.vb)
  (st, st.request url "GET" true false)

/-- `Posts.delete_post`. -/
def Posts.delete_post (st : Base) (post_id : String) :
    Base × Except String Request :=
  let url := st.api_url ++ "/" ++ post_id
  let st := st.reset
  (st, st.request url "DEL" false false)

/-- `Posts.update_post` (`id` staged unconditionally). -/
def Posts.update_post (st : Base) (post_id id : String)
    (is_pinned : Option Bool) (message : Option String)
    (has_reactions : Option Bool) (props : Option String) :
    Base × Except String Request :=
  let url := st.api_url ++ "/" ++ post_id
  let st := st.reset
  let st := st.add_application_json_header
  let st := st.add_to_json "id" (Val.vs id)
  let st := st.stageOpt "is_pinned" (is_pinned.map Val.vb)
  let st := st.stageOpt "message" (message.map Val.vs)
  let st := st.stageOpt "has_reactions" (has_reactions.map Val.vb)
  let st := st.stageOpt "props" (props.map Val.vs)
  (st, st.request url "PUT" true false)

/-! ### Bookmarks resource module (`mm_bookmarks_api.py`) -/

/-- `Bookmarks.__init__`: `api_url = f"{base_url}/channels"`. -/
def Bookmarks.init (token server_url : String) : Base :=
  let st := Base.make token server_url
  { st with api_url := st.base_url ++ "/channels" }

/-- `Bookmarks.get_chnl_bkmrks_for_chnl`. -/
def Bookmarks.get_chnl_bkmrks_for_chnl (st : Base) (channel_id : String)
    (bookmarks_since : Option Int) : Base × Except String Request :=
  let url := st.api_url ++ "/" ++ channel_id ++ "/bookmarks"
  let st := st.reset
  let st := st.add_application_json_header
  let st := st.stageOpt "bookmarks_since" (bookmarks_since.map Val.vi)
  (st, st.request url "GET" true false)

/-- `Bookmarks.create_chnl_bkmrk` (`display_name` and `tp` staged
unconditionally, `tp` under the field name `type`). -/
def Bookmarks.create_chnl_bkmrk (st : Base) (channel_id : String)
    (display_name tp : String) (file_id link_url image_url emoji : Option String) :
    Base × Except String Request :=
  let url := st.api_url ++ "/" ++ channel_id ++ "/bookmarks"
  let st := st.reset
  let st := st.add_application_json_header
  let st := st.add_to_json "display_name" (Val.vs display_name)
  let st := st.add_to_json "type" (Val.vs tp)
  let st := st.stageOpt "file_id" (file_id.map Val.vs)
  let st := st.stageOpt "link_url" (link_url.map Val.vs)
  let st := st.stageOpt "image_url" (image_url.map Val.vs)
  let st := st.stageOpt "emoji" (emoji.map Val.vs)
  (st, st.request url "POST" true false)

/-- `Bookmarks.upd_chnl_bkmrk` (`tp` staged under the field name
`type`; dispatched with the `PATCH` verb). -/
def Bookmarks.upd_chnl_bkmrk (st : Base) (channel_id bookmark_id : String)
    (file_id display_name : Option String) (sort_order : Option Int)
    (link_url image_url emoji tp : Option String) :
    Base × Except String Request :=
  let url := st.api_url ++ "/" ++ channel_id ++ "/bookmarks/" ++ bookmark_id
  let st := st.reset
  let st := st.add_application_json_header
  let st := st.stageOpt "file_id" (file_id.map Val.vs)
  let st := st.stageOpt "display_name" (display_name.map Val.vs)
  let st := st.stageOpt "sort_order" (sort_order.map Val.vi)
  let st := st.stageOpt "link_url" (link_url.map Val.vs)
  let st := st.stageOpt "image_url" (image_url.map Val.vs)
  let st := st.stageOpt "emoji" (emoji.map Val.vs)
  let st := st.stageOpt "type" (tp.map Val.vs)
  (st, st.request url "PATCH" true false)

/-! ### Plugins resource module (`mm_plugins_api.py`) -/

/-- `Plugins.__init__`: `api_url = f"{base_url}/plugins"`. -/
def Plugins.init (token server_url : String) : Base :=
  let st := Base.make token server_url
  { st with api_url := st.base_url ++ "/plugins" }

/-- `Plugins.upload_plugin`: the plugin is staged as a JSON body field
and dispatched with `body=True` (not as multipart data); `force` has no
default but is staged under an `is not None` guard.  Note the trailing
slash in the source URL. -/
def Plugins.upload_plugin (st : Base) (plugin : String)
    (force : Option String) : Base × Except String Request :=
  let url := st.api_url ++ "/"
  let st := st.reset
  let st := st.add_application_json_header
  let st := st.add_to_json "plugin" (Val.vs plugin)
  let st := st.stageOpt "force" (force.map Val.vs)
  (st, st.request url "POST" true false)

/-- `Plugins.get_plugins`. -/
def Plugins.get_plugins (st : Base) : Base × Except String Request :=
  let url := st.api_url ++ "/"
  let st := st.reset
  (st, st.request url "GET" false false)

/-- `Plugins.install_plugin_from_url`. -/
def Plugins.install_plugin_from_url (st : Base) (plugin_download_url : String)
    (force : Option String) : Base × Except String Request :=
  let url := st.api_url ++ "/"
  let st := st.reset
  let st := st.add_application_json_header
  let st := st.add_to_json "plugin_download_url" (Val.vs plugin_download_url)
  let st := st.stageOpt "force" (force.map Val.vs)
  (st, st.request url "GET" true false)

/-! ### DataRetention resource module (`mm_data_retention_api.py`) -/

/-- `DataRetention.__init__`: `api_url = f"{base_url}/data_retention"`. -/
def DataRetention.init (token server_url : String) : Base :=
  let st := Base.make token server_url
  { st with api_url := st.base_url ++ "/data_retention" }

/-- `DataRetention.get_policies_applied_to_user_teams` (URL built from
`base_url`; `page` and `per_page` have no default but are staged under
`is not None` guards). -/
def DataRetention.get_policies_applied_to_user_teams (st : Base)
    (user_id : String) (page per_page : Option Int) :
    Base × Except String Request :=
  let url := st.base_url ++ "/users/" ++ user_id ++ "/data_retention/team_policies"
  let st := st.reset
  let st := st.add_application_json_header
  let st := st.stageOpt "page" (page.map Val.vi)
  let st := st.stageOpt "per_page" (per_page.map Val.vi)
  (st, st.request url "GET" true false)

/-- `DataRetention.get_policies_applied_to_user_chnls`. -/
def DataRetention.get_policies_applied_to_user_chnls (st : Base)
    (user_id : String) (page per_page : Option Int) :
    Base × Except String Request :=
  let url := st.base_url ++ "/users/" ++ user_id ++ "/data_retention/channel_policies"
  let st := st.reset
  let st := st.add_application_json_header
  let st := st.stageOpt "page" (page.map Val.vi)
  let st := st.stageOpt "per_page" (per_page.map Val.vi)
  (st, st.request url "GET" true false)

/-! ### The call surface

`Call` enumerates every public resource method of the six modules,
carrying the method arguments; `exec` dispatches a call against a
builder state.  This is the quantification domain for the claims about
"every public resource method in every module". -/

inductive Call where
  | teams_create_team (name display_name t_type : String)
  | teams_get_teams (page per_page : Option Int) (itc epc : Option Bool)
  | teams_get_team (team_id : String)
  | teams_update_team (team_id : String)
      (id display_name description company_name allowed_domains invite_id
        allow_open_invite : Option String)
  | teams_delete_team (team_id : String) (permanent : Option Bool)
  | teams_patch_team (team_id : String)
      (display_name description company_name invite_id : Option String)
      (allow_open_invite : Option Bool)
  | teams_update_team_privacy (team_id privacy : String)
  | teams_restore_team (team_id : String)
  | teams_get_team_by_name (name : String)
  | teams_search_teams (term page per_page : Option String)
      (aoi gc epc : Option Bool)
  | teams_check_if_team_exists (name : String)
  | teams_get_user_teams (user_id : String)
  | teams_get_team_members (team_id : String) (page per_page : Option Int)
  | teams_add_user_to_team (team_id : String) (t_id user_id : Option String)
  | teams_add_user_to_team_from_invite (token : String)
  | teams_add_multiple_users_to_team (team_id : String)
      (graceful : Option Bool) (t_id user_id roles : Option String)
      (delete_at : Option Int) (scheme_user scheme_admin : Option Bool)
      (explicit_roles : Option String)
  | teams_get_team_members_for_user (user_id : String)
  | teams_get_team_member (team_id user_id : String)
  | teams_remove_user_from_team (team_id user_id : String)
  | teams_get_team_members_by_ids (team_id : String)
      (user_ids : Option (List String))
  | teams_get_team_stats (team_id : String)
  | teams_regenerate_invite_id_from_team (team_id : String)
  | teams_get_team_icon (team_id : String)
  | teams_sets_team_icon (team_id : String) (image : Option String)
  | teams_remove_team_icon (team_id : String)
  | teams_update_team_member_roles (team_id user_id : String)
      (roles : Option String)
  | teams_update_scheme_derived_roles_of_team_member (team_id user_id : String)
      (scheme_admin scheme_user : Option Bool)
  | teams_get_team_unread_for_user (user_id : String)
      (exclude_team : Option String) (ict : Option Bool)
  | teams_get_unread_for_team (user_id team_id : String)
  | teams_invite_users_to_team_by_email (team_id : String)
      (user_email : Option (List String))
  | teams_invite_guests_to_team_by_email (team_id : String)
      (emails channels : List String) (message : Option String)
  | teams_invalidate_active_email_invitations
  | teams_import_team_from_other_application (team_id file : String)
      (filesize : Int) (importFrom : String)
  | teams_get_invite_info_for_team (invite_id : String)
  | teams_set_team_scheme (team_id scheme_id : String)
  | teams_team_members_minus_group_members (team_id group_ids : String)
      (page per_page : Option Int)
  | teams_search_files_in_team (team_id terms : String) (is_or_search : Bool)
      (tzo : Option Int) (idc : Option Bool) (page per_page : Option Int)
  | users_login_to_mattermost_server
      (id login_id token device_id ldap_only password : Option String)
  | users_autologin_to_mm_server_using_cws_token
      (login_id cws_token : Option String)
  | users_logout_from_mm_server
  | users_create_user (email username : String)
      (t iid first_name last_name nickname auth_data auth_service password
        locale : Option String) (props : Option Val)
      (notify_props : Option String)
  | users_get_users (page per_page : Option Int)
      (in_team not_in_team in_channel not_in_channel in_group : Option String)
      (gc wt active inactive : Option Bool)
      (role sort roles channel_roles team_roles : Option String)
  | users_permanent_delete_all_users
  | users_get_users_by_ids (since : Option Int)
      (user_ids : Option (List String))
  | users_get_users_by_group_channels_ids (channel_ids : Option (List String))
  | users_get_users_by_usernames (usernames : Option (List String))
  | users_search_users (term : String)
      (team_id not_in_team_id in_channel_id not_in_channel_id
        in_group_id : Option String) (gc ai wt : Option Bool)
      (limit : Option Int)
  | users_autocomplete_users (name : String)
      (team_id channel_id : Option String) (limit : Option Int)
  | users_get_user_ids_of_known_users
  | users_get_total_count_of_users_in_the_system
  | users_get_total_count_of_users_in_system_matching_specified_filters
      (in_team in_channel : Option String) (incd incb : Option Bool)
      (roles channel_roles team_roles : Option String)
  | users_get_user (user_id : String)
  | users_update_user (user_id : String) (id email username : Option String)
      (first_name last_name nickname locale position : Option String)
      (timezone : Option Val) (props : Option String)
      (notify_props : Option Val)
  | users_deactivate_user_account (user_id : String)
  | users_patch_user (user_id : String)
      (email username first_name last_name nickname locale position
        props : Option String) (notify_props : Option Val)
  | users_update_user_roles (user_id roles : String)
  | users_update_user_active_status (user_id : String) (active : Bool)
  | users_get_user_profile_image (user_id : String)
      (last_pic_upd : Option String)
  | users_set_user_profile_image (user_id image : String)
  | users_delete_user_profile_image (user_id : String)
  | users_return_user_default_profile_image (user_id : String)
  | users_get_user_by_username (username : String)
  | users_reset_password (code new_password : String)
  | users_update_user_mfa (user_id : String) (activate : Bool)
      (code : Option String)
  | users_generate_mfa_secret (user_id : String)
  | users_demote_user_to_guest (user_id : String)
  | users_promote_guest_to_user (user_id : String)
  | users_convert_user_to_bot (user_id : String)
  | users_check_mfa (login_id : String)
  | users_update_user_password (user_id new_password : String)
      (current_password : Option String)
  | users_send_password_reset_email (email : String)
  | users_get_user_by_email (email : String)
  | users_get_user_sessions (user_id : String)
  | users_revoke_user_session (user_id session_id : String)
  | users_revoke_all_active_sessions_for_user (user_id : String)
  | users_attach_mobile_device (device_id : String)
  | users_get_user_audits (user_id : String)
  | posts_create_post (set_online : Bool) (channel_id : String)
      (message root_id : Option String) (file_ids : Option (List String))
      (props metadata : Option Val)
  | posts_create_ephemeral_post (user_id : String) (post : Val)
  | posts_get_post (post_id : String) (include_deleted : Option Bool)
  | posts_delete_post (post_id : String)
  | posts_update_post (post_id id : String) (is_pinned : Option Bool)
      (message : Option String) (has_reactions : Option Bool)
      (props : Option String)
  | bkm_get_chnl_bkmrks_for_chnl (channel_id : String)
      (bookmarks_since : Option Int)
  | bkm_create_chnl_bkmrk (channel_id display_name tp : String)
      (file_id link_url image_url emoji : Option String)
  | bkm_upd_chnl_bkmrk (channel_id bookmark_id : String)
      (file_id display_name : Option String) (sort_order : Option Int)
      (link_url image_url emoji tp : Option String)
  | plugins_upload_plugin (plugin : String) (force : Option String)
  | plugins_get_plugins
  | plugins_install_plugin_from_url (plugin_download_url : String)
      (force : Option String)
  | dr_get_policies_applied_to_user_teams (user_id : String)
      (page per_page : Option Int)
  | dr_get_policies_applied_to_user_chnls (user_id : String)
      (page per_page : Option Int)

/-- Dispatch a call against a builder state. -/
def exec (st : Base) : Call → Base × Except String Request
  | .teams_create_team a b c => Teams.create_team st a b c
  | .teams_get_teams a b c d => Teams.get_teams st a b c d
  | .teams_get_team a => Teams.get_team st a
  | .teams_update_team a b c d e f g h => Teams.update_team st a b c d e f g h
  | .teams_delete_team a b => Teams.delete_team st a b
  | .teams_patch_team a b c d e f => Teams.patch_team st a b c d e f
  | .teams_update_team_privacy a b => Teams.update_team_privacy st a b
  | .teams_restore_team a => Teams.restore_team st a
  | .teams_get_team_by_name a => Teams.get_team_by_name st a
  | .teams_search_teams a b c d e f => Teams.search_teams st a b c d e f
  | .teams_check_if_team_exists a => Teams.check_if_team_exists st a
  | .teams_get_user_teams a => Teams.get_user_teams st a
  | .teams_get_team_members a b c => Teams.get_team_members st a b c
  | .teams_add_user_to_team a b c => Teams.add_user_to_team st a b c
  | .teams_add_user_to_team_from_invite a => Teams.add_user_to_team_from_invite st a
  | .teams_add_multiple_users_to_team a b c d e f g h i =>
      Teams.add_multiple_users_to_team st a b c d e f g h i
  | .teams_get_team_members_for_user a => Teams.get_team_members_for_user st a
  | .teams_get_team_member a b => Teams.get_team_member st a b
  | .teams_remove_user_from_team a b => Teams.remove_user_from_team st a b
  | .teams_get_team_members_by_ids a b => Teams.get_team_members_by_ids st a b
  | .teams_get_team_stats a => Teams.get_team_stats st a
  | .teams_regenerate_invite_id_from_team a => Teams.regenerate_invite_id_from_team st a
  | .teams_get_team_icon a => Teams.get_team_icon st a
  | .teams_sets_team_icon a b => Teams.sets_team_icon st a b
  | .teams_remove_team_icon a => Teams.remove_team_icon st a
  | .teams_update_team_member_roles a b c => Teams.update_team_member_roles st a b c
  | .teams_update_scheme_derived_roles_of_team_member a b c d =>
      Teams.update_scheme_derived_roles_of_team_member st a b c d
  | .teams_get_team_unread_for_user a b c => Teams.get_team_unread_for_user st a b c
  | .teams_get_unread_for_team a b => Teams.get_unread_for_team st a b
  | .teams_invite_users_to_team_by_email a b => Teams.invite_users_to_team_by_email st a b
  | .teams_invite_guests_to_team_by_email a b c d =>
      Teams.invite_guests_to_team_by_email st a b c d
  | .teams_invalidate_active_email_invitations => Teams.invalidate_active_email_invitations st
  | .teams_import_team_from_other_application a b c d =>
      Teams.import_team_from_other_application st a b c d
  | .teams_get_invite_info_for_team a => Teams.get_invite_info_for_team st a
  | .teams_set_team_scheme a b => Teams.set_team_scheme st a b
  | .teams_team_members_minus_group_members a b c d =>
      Teams.team_members_minus_group_members st a b c d
  | .teams_search_files_in_team a b c d e f g =>
      Teams.search_files_in_team st a b c d e f g
  | .users_login_to_mattermost_server a b c d e f =>
      Uploads.login_to_mattermost_server st a b c d e f
  | .users_autologin_to_mm_server_using_cws_token a b =>
      Uploads.autologin_to_mm_server_using_cws_token st a b
  | .users_logout_from_mm_server => Uploads.logout_from_mm_server st
  | .users_create_user a b c d e f g h i j k l m =>
      Uploads.create_user st a b c d e f g h i j k l m
  | .users_get_users a b c d e f g h i j k l m n o p =>
      Uploads.get_users st a b c d e f g h i j k l m n o p
  | .users_permanent_delete_all_users => Uploads.permanent_delete_all_users st
  | .users_get_users_by_ids a b => Uploads.get_users_by_ids st a b
  | .users_get_users_by_group_channels_ids a => Uploads.get_users_by_group_channels_ids st a
  | .users_get_users_by_usernames a => Uploads.get_users_by_usernames st a
  | .users_search_users a b c d e f g h i j => Uploads.search_users st a b c d e f g h i j
  | .users_autocomplete_users a b c d => Uploads.autocomplete_users st a b c d
  | .users_get_user_ids_of_known_users => Uploads.get_user_ids_of_known_users st
  | .users_get_total_count_of_users_in_the_system =>
      Uploads.get_total_count_of_users_in_the_system st
  | .users_get_total_count_of_users_in_system_matching_specified_filters a b c d e f g =>
      Uploads.get_total_count_of_users_in_system_matching_specified_filters st a b c d e f g
  | .users_get_user a => Uploads.get_user st a
  | .users_update_user a b c d e f g h i j k l =>
      Uploads.update_user st a b c d e f g h i j k l
  | .users_deactivate_user_account a => Uploads.deactivate_user_account st a
  | .users_patch_user a b c d e f g h i j => Uploads.patch_user st a b c d e f g h i j
  | .users_update_user_roles a b => Uploads.update_user_roles st a b
  | .users_update_user_active_status a b => Uploads.update_user_active_status st a b
  | .users_get_user_profile_image a b => Uploads.get_user_profile_image st a b
  | .users_set_user_profile_image a b => Uploads.set_user_profile_image st a b
  | .users_delete_user_profile_image a => Uploads.delete_user_profile_image st a
  | .users_return_user_default_profile_image a =>
      Uploads.return_user_default_profile_image st a
  | .users_get_user_by_username a => Uploads.get_user_by_username st a
  | .users_reset_password a b => Uploads.reset_password st a b
  | .users_update_user_mfa a b c => Uploads.update_user_mfa st a b c
  | .users_generate_mfa_secret a => Uploads.generate_mfa_secret st a
  | .users_demote_user_to_guest a => Uploads.demote_user_to_guest st a
  | .users_promote_guest_to_user a => Uploads.promote_guest_to_user st a
  | .users_convert_user_to_bot a => Uploads.convert_user_to_bot st a
  | .users_check_mfa a => Uploads.check_mfa st a
  | .users_update_user_password a b c => Uploads.update_user_password st a b c
  | .users_send_password_reset_email a => Uploads.send_password_reset_email st a
  | .users_get_user_by_email a => Uploads.get_user_by_email st a
  | .users_get_user_sessions a => Uploads.get_user_sessions st a
  | .users_revoke_user_session a b => Uploads.revoke_user_session st a b
  | .users_revoke_all_active_sessions_for_user a =>
      Uploads.revoke_all_active_sessions_for_user st a
  | .users_attach_mobile_device a => Uploads.attach_mobile_device st a
  | .users_get_user_audits a => Uploads.get_user_audits st a
  | .posts_create_post a b c d e f g => Posts.create_post st a b c d e f g
  | .posts_create_ephemeral_post a b => Posts.create_ephemeral_post st a b
  | .posts_get_post a b => Posts.get_post st a b
  | .posts_delete_post a => Posts.delete_post st a
  | .posts_update_post a b c d e f => Posts.update_post st a b c d e f
  | .bkm_get_chnl_bkmrks_for_chnl a b => Bookmarks.get_chnl_bkmrks_for_chnl st a b
  | .bkm_create_chnl_bkmrk a b c d e f g => Bookmarks.create_chnl_bkmrk st a b c d e f g
  | .bkm_upd_chnl_bkmrk a b c d e f g h i => Bookmarks.upd_chnl_bkmrk st a b c d e f g h i
  | .plugins_upload_plugin a b => Plugins.upload_plugin st a b
  | .plugins_get_plugins => Plugins.get_plugins st
  | .plugins_install_plugin_from_url a b => Plugins.install_plugin_from_url st a b
  | .dr_get_policies_applied_to_user_teams a b c =>
      DataRetention.get_policies_applied_to_user_teams st a b c
  | .dr_get_policies_applied_to_user_chnls a b c =>
      DataRetention.get_policies_applied_to_user_chnls st a b c

/-! ### Observations on calls and staged state -/

/-- Keep the first `some`; used to give "last write wins" semantics to
the staged field list. -/
def lastOr {α : Type} : Option α → Option α → Option α
  | some v, _ => some v
  | none, o => o

/-- The value a staged association list gives a key under
"last write for a key wins" serialisation. -/
def lookupLast {α : Type} : List (String × α) → String → Option α
  | [], _ => none
  | p :: t, k => lastOr (lookupLast t k) (if p.1 = k then some p.2 else none)

/-- How many times a key is staged in an association list. -/
def countKey {α : Type} (l : List (String × α)) (k : String) : Nat :=
  (l.filter (fun p => p.1 == k)).length

/-- The association-list contribution of one guarded staging call:
nothing when the parameter is unset, one entry otherwise. -/
def optEntry {α : Type} (k : String) : Option α → List (String × α)
  | some v => [(k, v)]
  | none => []

/-- The JSON fields of the request a call dispatched (none when the
call raised instead of dispatching). -/
def fieldsOut (p : Base × Except String Request) : List (String × Val) :=
  match p.2 with
  | Except.ok r => r.json_fields
  | Except.error _ => []

/-- The multipart parts of the request a call dispatched. -/
def partsOut (p : Base × Except String Request) : List (String × String) :=
  match p.2 with
  | Except.ok r => r.file_parts
  | Except.error _ => []

/-- A state holds JSON-mode staging: staged JSON fields or the
`application/json` content type header. -/
def jsonStagedB (st : Base) : Bool :=
  !st.json_fields.isEmpty ||
  st.headers.any (fun p => p.1 == "Content-Type" && p.2 == "application/json")

/-- A state holds multipart-mode staging: staged file/form parts or the
`multipart/form-data` content type header. -/
def multiStagedB (st : Base) : Bool :=
  !st.file_parts.isEmpty ||
  st.headers.any (fun p => p.1 == "Content-Type" && p.2 == "multipart/form-data")

/-- A string free of `?`: no query-string separator. -/
def noQ (s : String) : Prop := ('?' : Char) ∉ s.data

/-- The optional JSON-staged parameters of each call: for every method
parameter whose Python default is `None` and whose staging is an
`add_to_json` guarded by `is not None`, the staged field name paired
with the supplied value (already in the method's value encoding).
Parameters without a default (even when staged under a guard), and
`sets_team_icon`'s `image` (staged as a file part, treated separately),
are not optional parameters in this sense. -/
def optJson : Call → List (String × Option Val)
  | .teams_get_teams page per_page itc epc =>
      [("page", page.map Val.vi), ("per_page", per_page.map Val.vi),
       ("include_total_count", itc.map Val.vb),
       ("exclude_policy_constrained", epc.map Val.vb)]
  | .teams_delete_team _ permanent => [("permanent", permanent.map Val.vb)]
  | .teams_search_teams term page per_page aoi gc epc =>
      [("term", term.map Val.vs), ("page", page.map Val.vs),
       ("per_page", per_page.map Val.vs), ("allow_open_invite", aoi.map Val.vb),
       ("group_constrained", gc.map Val.vb),
       ("exclude_policy_constrained", epc.map Val.vb)]
  | .teams_get_team_members _ page per_page =>
      [("page", page.map Val.vi), ("per_page", per_page.map Val.vi)]
  | .teams_add_user_to_team _ t_id user_id =>
      [("team_id", t_id.map Val.vs), ("user_id", user_id.map Val.vs)]
  | .teams_add_multiple_users_to_team _ graceful t_id user_id roles delete_at
      scheme_user scheme_admin explicit_roles =>
      [("graceful", graceful.map Val.vb), ("team_id", t_id.map Val.vs),
       ("user_id", user_id.map Val.vs), ("roles", roles.map Val.vs),
       ("delete_at", delete_at.map Val.vi), ("scheme_user", scheme_user.map Val.vb),
       ("scheme_admin", scheme_admin.map Val.vb),
       ("explicit_roles", explicit_roles.map Val.vs)]
  | .teams_get_team_unread_for_user _ _ ict =>
      [("include_collapsed_threads", ict.map Val.vb)]
  | .teams_invite_users_to_team_by_email _ user_email =>
      [("user_email", user_email.map Val.vls)]
  | .teams_invite_guests_to_team_by_email _ _ _ message =>
      [("message", message.map Val.vs)]
  | .teams_team_members_minus_group_members _ _ page per_page =>
      [("page", page.map Val.vi), ("per_page", per_page.map Val.vi)]
  | .teams_search_files_in_team _ _ _ tzo idc page per_page =>
      [("time_zone_offset", tzo.map Val.vi),
       ("include_deleted_channels", idc.map Val.vb),
       ("page", page.map Val.vi), ("per_page", per_page.map Val.vi)]
  | .users_login_to_mattermost_server id login_id token device_id ldap_only
      password =>
      [("id", id.map Val.vs), ("login_id", login_id.map Val.vs),
       ("token", token.map Val.vs), ("device_id", device_id.map Val.vs),
       ("ldap_only", ldap_only.map Val.vs), ("password", password.map Val.vs)]
  | .users_autologin_to_mm_server_using_cws_token login_id cws_token =>
      [("login_id", login_id.map Val.vs), ("cws_token", cws_token.map Val.vs)]
  | .users_create_user _ _ t iid first_name last_name nickname auth_data
      auth_service password locale props notify_props =>
      [("t", t.map Val.vs), ("iid", iid.map Val.vs),
       ("first_name", first_name.map Val.vs), ("last_name", last_name.map Val.vs),
       ("nickname", nickname.map Val.vs), ("auth_data", auth_data.map Val.vs),
       ("auth_service", auth_service.map Val.vs), ("password", password.map Val.vs),
       ("locale", locale.map Val.vs), ("props", props),
       ("notify_props", notify_props.map Val.vs)]
  | .users_get_users page per_page in_team not_in_team in_channel not_in_channel
      in_group gc wt active inactive role sort roles channel_roles team_roles =>
      [("page", page.map Val.vi), ("per_page", per_page.map Val.vi),
       ("in_team", in_team.map Val.vs), ("not_in_team", not_in_team.map Val.vs),
       ("in_channel", in_channel.map Val.vs),
       ("not_in_channel", not_in_channel.map Val.vs),
       ("in_group", in_group.map Val.vs), ("group_constrained", gc.map Val.vb),
       ("without_team", wt.map Val.vb), ("active", active.map Val.vb),
       ("inactive", inactive.map Val.vb), ("role", role.map Val.vs),
       ("sort", sort.map Val.vs), ("roles", roles.map Val.vs),
       ("channel_roles", channel_roles.map Val.vs),
       ("team_roles", team_roles.map Val.vs)]
  | .users_get_users_by_ids since user_ids =>
      [("since", since.map Val.vi), ("user_ids", user_ids.map Val.vls)]
  | .users_get_users_by_group_channels_ids channel_ids =>
      [("channel_ids", channel_ids.map Val.vls)]
  | .users_get_users_by_usernames usernames =>
      [("usernames", usernames.map Val.vls)]
  | .users_search_users _ team_id not_in_team_id in_channel_id not_in_channel_id
      in_group_id gc ai wt limit =>
      [("team_id", team_id.map Val.vs),
       ("not_in_team_id", not_in_team_id.map Val.vs),
       ("in_channel_id", in_channel_id.map Val.vs),
       ("not_in_channel_id", not_in_channel_id.map Val.vs),
       ("in_group_id", in_group_id.map Val.vs),
       ("group_constrained", gc.map Val.vb), ("allow_inactive", ai.map Val.vb),
       ("without_team", wt.map Val.vb), ("limit", limit.map Val.vi)]
  | .users_autocomplete_users _ team_id channel_id limit =>
      [("team_id", team_id.map Val.vs), ("channel_id", channel_id.map Val.vs),
       ("limit", limit.map Val.vi)]
  | .users_get_total_count_of_users_in_system_matching_specified_filters in_team
      in_channel incd incb roles channel_roles team_roles =>
      [("in_team", in_team.map Val.vs), ("in_channel", in_channel.map Val.vs),
       ("include_deleted", incd.map Val.vb), ("include_bots", incb.map Val.vb),
       ("roles", roles.map Val.vs), ("channel_roles", channel_roles.map Val.vs),
       ("team_roles", team_roles.map Val.vs)]
  | .users_update_user _ _ _ _ first_name last_name nickname locale position
      timezone props notify_props =>
      [("first_name", first_name.map Val.vs), ("last_name", last_name.map Val.vs),
       ("nickname", nickname.map Val.vs), ("locale", locale.map Val.vs),
       ("position", position.map Val.vs), ("timezone", timezone),
       ("props", props.map Val.vs), ("notify_props", notify_props)]
  | .users_patch_user _ email username first_name last_name nickname locale
      position props notify_props =>
      [("email", email.map Val.vs), ("username", username.map Val.vs),
       ("first_name", first_name.map Val.vs), ("last_name", last_name.map Val.vs),
       ("nickname", nickname.map Val.vs), ("locale", locale.map Val.vs),
       ("position", position.map Val.vs), ("props", props.map Val.vs),
       ("notify_props", notify_props)]
  | .users_get_user_profile_image _ last_pic_upd =>
      [("_", last_pic_upd.map Val.vs)]
  | .users_update_user_mfa _ _ code => [("code", code.map Val.vs)]
  | .users_update_user_password _ _ current_password =>
      [("current_password", current_password.map Val.vs)]
  | .posts_create_post _ _ message root_id file_ids props metadata =>
      [("message", message.map Val.vs), ("root_id", root_id.map Val.vs),
       ("file_ids", file_ids.map Val.vls), ("props", props),
       ("metadata", metadata)]
  | .posts_update_post _ _ is_pinned message has_reactions props =>
      [("is_pinned", is_pinned.map Val.vb), ("message", message.map Val.vs),
       ("has_reactions", has_reactions.map Val.vb), ("props", props.map Val.vs)]
  | .bkm_get_chnl_bkmrks_for_chnl _ bookmarks_since =>
      [("bookmarks_since", bookmarks_since.map Val.vi)]
  | .bkm_create_chnl_bkmrk _ _ _ file_id link_url image_url emoji =>
      [("file_id", file_id.map Val.vs), ("link_url", link_url.map Val.vs),
       ("image_url", image_url.map Val.vs), ("emoji", emoji.map Val.vs)]
  | .bkm_upd_chnl_bkmrk _ _ file_id display_name sort_order link_url image_url
      emoji tp =>
      [("file_id", file_id.map Val.vs), ("display_name", display_name.map Val.vs),
       ("sort_order", sort_order.map Val.vi), ("link_url", link_url.map Val.vs),
       ("image_url", image_url.map Val.vs), ("emoji", emoji.map Val.vs),
       ("type", tp.map Val.vs)]
  | _ => []

/-- The string arguments each call interpolates into its URL (path
segments); all other characters of the URL are the stored
`api_url`/`base_url` and fixed literal segments. -/
def urlArgs : Call → List String
  | .teams_get_team tid => [tid]
  | .teams_update_team tid _ _ _ _ _ _ _ => [tid]
  | .teams_delete_team tid _ => [tid]
  | .teams_patch_team tid _ _ _ _ _ => [tid]
  | .teams_update_team_privacy tid _ => [tid]
  | .teams_restore_team tid => [tid]
  | .teams_get_team_by_name name => [name]
  | .teams_check_if_team_exists name => [name]
  | .teams_get_user_teams uid => [uid]
  | .teams_get_team_members tid _ _ => [tid]
  | .teams_add_user_to_team tid _ _ => [tid]
  | .teams_add_multiple_users_to_team tid _ _ _ _ _ _ _ _ => [tid]
  | .teams_get_team_members_for_user uid => [uid]
  | .teams_get_team_member tid uid => [tid, uid]
  | .teams_remove_user_from_team tid uid => [tid, uid]
  | .teams_get_team_members_by_ids tid _ => [tid]
  | .teams_get_team_stats tid => [tid]
  | .teams_regenerate_invite_id_from_team tid => [tid]
  | .teams_get_team_icon tid => [tid]
  | .teams_sets_team_icon tid _ => [tid]
  | .teams_remove_team_icon tid => [tid]
  | .teams_update_team_member_roles tid uid _ => [tid, uid]
  | .teams_update_scheme_derived_roles_of_team_member tid uid _ _ => [tid, uid]
  | .teams_get_team_unread_for_user uid _ _ => [uid]
  | .teams_get_unread_for_team uid tid => [uid, tid]
  | .teams_invite_users_to_team_by_email tid _ => [tid]
  | .teams_invite_guests_to_team_by_email tid _ _ _ => [tid]
  | .teams_import_team_from_other_application tid _ _ _ => [tid]
  | .teams_get_invite_info_for_team iid => [iid]
  | .teams_set_team_scheme tid _ => [tid]
  | .teams_team_members_minus_group_members tid _ _ _ => [tid]
  | .teams_search_files_in_team tid _ _ _ _ _ _ => [tid]
  | .users_get_user uid => [uid]
  | .users_update_user uid _ _ _ _ _ _ _ _ _ _ _ => [uid]
  | .users_deactivate_user_account uid => [uid]
  | .users_patch_user uid _ _ _ _ _ _ _ _ _ => [uid]
  | .users_update_user_roles uid _ => [uid]
  | .users_update_user_active_status uid _ => [uid]
  | .users_get_user_profile_image uid _ => [uid]
  | .users_set_user_profile_image uid _ => [uid]
  | .users_delete_user_profile_image uid => [uid]
  | .users_return_user_default_profile_image uid => [uid]
  | .users_get_user_by_username un => [un]
  | .users_update_user_mfa uid _ _ => [uid]
  | .users_generate_mfa_secret uid => [uid]
  | .users_demote_user_to_guest uid => [uid]
  | .users_promote_guest_to_user uid => [uid]
  | .users_convert_user_to_bot uid => [uid]
  | .users_update_user_password uid _ _ => [uid]
  | .users_get_user_by_email em => [em]
  | .users_get_user_sessions uid => [uid]
  | .users_revoke_user_session uid _ => [uid]
  | .users_revoke_all_active_sessions_for_user uid => [uid]
  | .users_get_user_audits uid => [uid]
  | .posts_get_post pid _ => [pid]
  | .posts_delete_post pid => [pid]
  | .posts_update_post pid _ _ _ _ _ => [pid]
  | .bkm_get_chnl_bkmrks_for_chnl cid _ => [cid]
  | .bkm_create_chnl_bkmrk cid _ _ _ _ _ _ => [cid]
  | .bkm_upd_chnl_bkmrk cid bid _ _ _ _ _ _ _ => [cid, bid]
  | .dr_get_policies_applied_to_user_teams uid _ _ => [uid]
  | .dr_get_policies_applied_to_user_chnls uid _ _ => [uid]
  | _ => []

instance (s : String) : Decidable (noQ s) :=
  inferInstanceAs (Decidable (('?' : Char) ∉ s.data))

/-! ### Lemmas about the observation helpers -/

attribute [simp] exec Teams.create_team Teams.get_teams Teams.get_team
  Teams.update_team Teams.delete_team Teams.patch_team Teams.update_team_privacy
  Teams.restore_team Teams.get_team_by_name Teams.search_teams
  Teams.check_if_team_exists Teams.get_user_teams Teams.get_team_members
  Teams.add_user_to_team Teams.add_user_to_team_from_invite
  Teams.add_multiple_users_to_team Teams.get_team_members_for_user
  Teams.get_team_member Teams.remove_user_from_team Teams.get_team_members_by_ids
  Teams.get_team_stats Teams.regenerate_invite_id_from_team Teams.get_team_icon
  Teams.sets_team_icon Teams.remove_team_icon Teams.update_team_member_roles
  Teams.update_scheme_derived_roles_of_team_member Teams.get_team_unread_for_user
  Teams.get_unread_for_team Teams.invite_users_to_team_by_email
  Teams.invite_guests_to_team_by_email Teams.invalidate_active_email_invitations
  Teams.import_team_from_other_application Teams.get_invite_info_for_team
  Teams.set_team_scheme Teams.team_members_minus_group_members
  Teams.search_files_in_team Uploads.login_to_mattermost_server
  Uploads.autologin_to_mm_server_using_cws_token Uploads.logout_from_mm_server
  Uploads.create_user Uploads.get_users Uploads.permanent_delete_all_users
  Uploads.get_users_by_ids Uploads.get_users_by_group_channels_ids
  Uploads.get_users_by_usernames Uploads.search_users Uploads.autocomplete_users
  Uploads.get_user_ids_of_known_users Uploads.get_total_count_of_users_in_the_system
  Uploads.get_total_count_of_users_in_system_matching_specified_filters
  Uploads.get_user Uploads.update_user Uploads.deactivate_user_account
  Uploads.patch_user Uploads.update_user_roles Uploads.update_user_active_status
  Uploads.get_user_profile_image Uploads.set_user_profile_image
  Uploads.delete_user_profile_image Uploads.return_user_default_profile_image
  Uploads.get_user_by_username Uploads.reset_password Uploads.update_user_mfa
  Uploads.generate_mfa_secret Uploads.demote_user_to_guest
  Uploads.promote_guest_to_user Uploads.convert_user_to_bot Uploads.check_mfa
  Uploads.update_user_password Uploads.send_password_reset_email
  Uploads.get_user_by_email Uploads.get_user_sessions Uploads.revoke_user_session
  Uploads.revoke_all_active_sessions_for_user Uploads.attach_mobile_device
  Uploads.get_user_audits Posts.create_post Posts.create_ephemeral_post
  Posts.get_post Posts.delete_post Posts.update_post
  Bookmarks.get_chnl_bkmrks_for_chnl Bookmarks.create_chnl_bkmrk
  Bookmarks.upd_chnl_bkmrk Plugins.upload_plugin Plugins.get_plugins
  Plugins.install_plugin_from_url DataRetention.get_policies_applied_to_user_teams
  DataRetention.get_policies_applied_to_user_chnls

@[simp] theorem lastOr_some {α : Type} (v : α) (o : Option α) :
    lastOr (some v) o = some v := rfl
@[simp] theorem lastOr_none {α : Type} (o : Option α) : lastOr none o = o := rfl
@[simp] theorem lastOr_none_right {α : Type} (o : Option α) : lastOr o none = o := by
  cases o <;> rfl

theorem lastOr_assoc {α : Type} (a b c : Option α) :
    lastOr (lastOr a b) c = lastOr a (lastOr b c) := by cases a <;> rfl

@[simp] theorem lookupLast_nil {α : Type} (k : String) :
    lookupLast ([] : List (String × α)) k = none := rfl

@[simp] theorem lookupLast_cons {α : Type} (p : String × α)
    (t : List (String × α)) (k : String) :
    lookupLast (p :: t) k =
      lastOr (lookupLast t k) (if p.1 = k then some p.2 else none) := rfl

@[simp] theorem lookupLast_append {α : Type} (l₁ l₂ : List (String × α)) (k : String) :
    lookupLast (l₁ ++ l₂) k = lastOr (lookupLast l₂ k) (lookupLast l₁ k) := by
  induction l₁ with
  | nil =>
      rw [List.nil_append]
      cases hl : lookupLast l₂ k <;> simp [hl, lastOr]
  | cons p t ih =>
      show lastOr (lookupLast (t ++ l₂) k) _ = _
      rw [ih, lastOr_assoc]
      rfl

@[simp] theorem lookupLast_singleton {α : Type} (k' k : String) (v : α) :
    lookupLast [(k', v)] k = if k' = k then some v else none := by
  by_cases h : k' = k <;> simp [lookupLast, h, lastOr]

@[simp] theorem lookupLast_optEntry {α : Type} (k' k : String) (v : Option α) :
    lookupLast (optEntry k' v) k = if k' = k then v else none := by
  cases v with
  | none => simp [optEntry]
  | some x => by_cases h : k' = k <;> simp [optEntry, h]

@[simp] theorem countKey_nil {α : Type} (k : String) :
    countKey ([] : List (String × α)) k = 0 := rfl

@[simp] theorem countKey_append {α : Type} (l₁ l₂ : List (String × α)) (k : String) :
    countKey (l₁ ++ l₂) k = countKey l₁ k + countKey l₂ k := by
  simp [countKey, List.filter_append]

@[simp] theorem countKey_cons {α : Type} (p : String × α)
    (t : List (String × α)) (k : String) :
    countKey (p :: t) k = (if p.1 = k then 1 else 0) + countKey t k := by
  by_cases h : p.1 = k <;> simp [countKey, List.filter_cons, h, Nat.add_comm]

@[simp] theorem countKey_singleton {α : Type} (k' k : String) (v : α) :
    countKey [(k', v)] k = if k' = k then 1 else 0 := by
  by_cases h : k' = k <;> simp [countKey, List.filter_cons, h]

@[simp] theorem countKey_optEntry {α : Type} (k' k : String) (v : Option α) :
    countKey (optEntry k' v) k = if k' = k then (if v.isSome then 1 else 0) else 0 := by
  cases v with
  | none => simp [optEntry]
  | some x => by_cases h : k' = k <;> simp [optEntry, h]

@[simp] theorem noQ_append (a b : String) : noQ (a ++ b) ↔ noQ a ∧ noQ b := by
  simp [noQ, String.data_append, not_or]

/-! ### Projection lemmas: every staging operation preserves the
credentials and URLs and mutates exactly one component of the
per-call state -/

@[simp] theorem reset_token (st : Base) : st.reset.token = st.token := rfl
@[simp] theorem reset_base_url (st : Base) : st.reset.base_url = st.base_url := rfl
@[simp] theorem reset_api_url (st : Base) : st.reset.api_url = st.api_url := rfl
@[simp] theorem reset_json (st : Base) : st.reset.json_fields = [] := rfl
@[simp] theorem reset_headers (st : Base) : st.reset.headers = [] := rfl
@[simp] theorem reset_parts (st : Base) : st.reset.file_parts = [] := rfl

@[simp] theorem ajh_token (st : Base) : st.add_application_json_header.token = st.token := rfl
@[simp] theorem ajh_base_url (st : Base) : st.add_application_json_header.base_url = st.base_url := rfl
@[simp] theorem ajh_api_url (st : Base) : st.add_application_json_header.api_url = st.api_url := rfl
@[simp] theorem ajh_json (st : Base) : st.add_application_json_header.json_fields = st.json_fields := rfl
@[simp] theorem ajh_headers (st : Base) : st.add_application_json_header.headers =
    st.headers ++ [("Content-Type", "application/json"),
      ("Authorization", "Bearer " ++ st.token)] := rfl
@[simp] theorem ajh_parts (st : Base) : st.add_application_json_header.file_parts = st.file_parts := rfl

@[simp] theorem atj_token (st : Base) (k : String) (v : Val) : (st.add_to_json k v).token = st.token := rfl
@[simp] theorem atj_base_url (st : Base) (k : String) (v : Val) : (st.add_to_json k v).base_url = st.base_url := rfl
@[simp] theorem atj_api_url (st : Base) (k : String) (v : Val) : (st.add_to_json k v).api_url = st.api_url := rfl
@[simp] theorem atj_json (st : Base) (k : String) (v : Val) :
    (st.add_to_json k v).json_fields = st.json_fields ++ [(k, v)] := rfl
@[simp] theorem atj_headers (st : Base) (k : String) (v : Val) : (st.add_to_json k v).headers = st.headers := rfl
@[simp] theorem atj_parts (st : Base) (k : String) (v : Val) : (st.add_to_json k v).file_parts = st.file_parts := rfl

@[simp] theorem amfd_token (st : Base) : st.add_multipart_form_data.token = st.token := rfl
@[simp] theorem amfd_base_url (st : Base) : st.add_multipart_form_data.base_url = st.base_url := rfl
@[simp] theorem amfd_api_url (st : Base) : st.add_multipart_form_data.api_url = st.api_url := rfl
@[simp] theorem amfd_json (st : Base) : st.add_multipart_form_data.json_fields = st.json_fields := rfl
@[simp] theorem amfd_headers (st : Base) : st.add_multipart_form_data.headers =
    st.headers ++ [("Content-Type", "multipart/form-data")] := rfl
@[simp] theorem amfd_parts (st : Base) : st.add_multipart_form_data.file_parts = st.file_parts := rfl

@[simp] theorem amfdh_eq (st : Base) :
    st.add_application_multipart_form_data_header = st.add_multipart_form_data := rfl

@[simp] theorem af_token (st : Base) (p : String) : (st.add_file p).token = st.token := rfl
@[simp] theorem af_base_url (st : Base) (p : String) : (st.add_file p).base_url = st.base_url := rfl
@[simp] theorem af_api_url (st : Base) (p : String) : (st.add_file p).api_url = st.api_url := rfl
@[simp] theorem af_json (st : Base) (p : String) : (st.add_file p).json_fields = st.json_fields := rfl
@[simp] theorem af_headers (st : Base) (p : String) : (st.add_file p).headers = st.headers := rfl
@[simp] theorem af_parts (st : Base) (p : String) :
    (st.add_file p).file_parts = st.file_parts ++ [("file", p)] := rfl

@[simp] theorem atmfd_token (st : Base) (n v : String) : (st.add_to_multipart_form_data n v).token = st.token := rfl
@[simp] theorem atmfd_base_url (st : Base) (n v : String) : (st.add_to_multipart_form_data n v).base_url = st.base_url := rfl
@[simp] theorem atmfd_api_url (st : Base) (n v : String) : (st.add_to_multipart_form_data n v).api_url = st.api_url := rfl
@[simp] theorem atmfd_json (st : Base) (n v : String) : (st.add_to_multipart_form_data n v).json_fields = st.json_fields := rfl
@[simp] theorem atmfd_headers (st : Base) (n v : String) : (st.add_to_multipart_form_data n v).headers = st.headers := rfl
@[simp] theorem atmfd_parts (st : Base) (n v : String) :
    (st.add_to_multipart_form_data n v).file_parts = st.file_parts ++ [(n, v)] := rfl

@[simp] theorem stageOpt_token (st : Base) (k : String) (v : Option Val) :
    (st.stageOpt k v).token = st.token := by cases v <;> rfl
@[simp] theorem stageOpt_base_url (st : Base) (k : String) (v : Option Val) :
    (st.stageOpt k v).base_url = st.base_url := by cases v <;> rfl
@[simp] theorem stageOpt_api_url (st : Base) (k : String) (v : Option Val) :
    (st.stageOpt k v).api_url = st.api_url := by cases v <;> rfl
@[simp] theorem stageOpt_json (st : Base) (k : String) (v : Option Val) :
    (st.stageOpt k v).json_fields = st.json_fields ++ optEntry k v := by
  cases v <;> simp [Base.stageOpt, optEntry]
@[simp] theorem stageOpt_headers (st : Base) (k : String) (v : Option Val) :
    (st.stageOpt k v).headers = st.headers := by cases v <;> rfl
@[simp] theorem stageOpt_parts (st : Base) (k : String) (v : Option Val) :
    (st.stageOpt k v).file_parts = st.file_parts := by cases v <;> rfl

@[simp] theorem stageOptFile_token (st : Base) (v : Option String) :
    (st.stageOptFile v).token = st.token := by cases v <;> rfl
@[simp] theorem stageOptFile_base_url (st : Base) (v : Option String) :
    (st.stageOptFile v).base_url = st.base_url := by cases v <;> rfl
@[simp] theorem stageOptFile_api_url (st : Base) (v : Option String) :
    (st.stageOptFile v).api_url = st.api_url := by cases v <;> rfl
@[simp] theorem stageOptFile_json (st : Base) (v : Option String) :
    (st.stageOptFile v).json_fields = st.json_fields := by cases v <;> rfl
@[simp] theorem stageOptFile_headers (st : Base) (v : Option String) :
    (st.stageOptFile v).headers = st.headers := by cases v <;> rfl
@[simp] theorem stageOptFile_parts (st : Base) (v : Option String) :
    (st.stageOptFile v).file_parts =
      st.file_parts ++ optEntry "file" (v.map (fun p => p)) := by
  cases v <;> simp [Base.stageOptFile, optEntry]

/-! ### Dispatch lemmas for the five verbs used by the modules -/

@[simp] theorem request_GET (st : Base) (url : String) (b f : Bool) :
    st.request url "GET" b f = Except.ok
      ⟨url, "GET", b, f, st.json_fields, st.headers, st.file_parts⟩ := rfl
@[simp] theorem request_POST (st : Base) (url : String) (b f : Bool) :
    st.request url "POST" b f = Except.ok
      ⟨url, "POST", b, f, st.json_fields, st.headers, st.file_parts⟩ := rfl
@[simp] theorem request_PUT (st : Base) (url : String) (b f : Bool) :
    st.request url "PUT" b f = Except.ok
      ⟨url, "PUT", b, f, st.json_fields, st.headers, st.file_parts⟩ := rfl
@[simp] theorem request_PATCH (st : Base) (url : String) (b f : Bool) :
    st.request url "PATCH" b f = Except.ok
      ⟨url, "PATCH", b, f, st.json_fields, st.headers, st.file_parts⟩ := rfl
@[simp] theorem request_DEL (st : Base) (url : String) (b f : Bool) :
    st.request url "DEL" b f = Except.ok
      ⟨url, "DEL", b, f, st.json_fields, st.headers, st.file_parts⟩ := rfl

/-! ### Shared structural lemmas about `exec` -/

/-- Every call leaves the credentials and URL configuration unchanged. -/
theorem exec_preserves (st : Base) (c : Call) :
    (exec st c).1.token = st.token ∧ (exec st c).1.base_url = st.base_url ∧
      (exec st c).1.api_url = st.api_url := by
  cases c <;> simp

/-- Resetting after a call is the same as resetting the original state. -/
theorem reset_exec (st : Base) (c : Call) : (exec st c).1.reset = st.reset := by
  obtain ⟨h1, h2, h3⟩ := exec_preserves st c
  simp only [Base.reset]
  rw [h1, h2, h3]

/-- The dispatched request is insensitive to whatever was staged before
the call: every method begins with `reset()`. -/
theorem exec_reset_invariant (st : Base) (c : Call) :
    (exec st c).2 = (exec st.reset c).2 := by
  cases c <;> rfl

@[simp] theorem optEntry_some {α : Type} (k : String) (v : α) :
    optEntry k (some v) = [(k, v)] := rfl

@[simp] theorem optEntry_none {α : Type} (k : String) :
    optEntry k (none : Option α) = [] := rfl

/-! ### Claim theorems -/

set_option maxHeartbeats 2000000 in
/-- C1: for every resource method and every optional parameter (one
whose Python default is `None`), leaving the parameter unset stages no
field for it into the pending JSON body of that call, and supplying a
non-`None` value stages the corresponding field exactly once with
exactly that value under the method's field name; the optional `image`
of `sets_team_icon` likewise stages exactly one multipart file part
with exactly the supplied value when set, and none when unset. -/
theorem optional_params_staged_iff_supplied (st : Base) (c : Call) :
    (∀ k v, (k, v) ∈ optJson c →
      countKey (fieldsOut (exec st c)) k = (if v.isSome then 1 else 0) ∧
      lookupLast (fieldsOut (exec st c)) k = v) ∧
    (∀ team_id image,
      countKey (partsOut (exec st (Call.teams_sets_team_icon team_id image)))
          "file" = (if image.isSome then 1 else 0) ∧
      lookupLast (partsOut (exec st (Call.teams_sets_team_icon team_id image)))
          "file" = image) := by
  constructor
  · cases c <;> (
      intro k v hm
      simp only [optJson, List.mem_cons, List.not_mem_nil, Prod.mk.injEq] at hm
      repeat' (first | (rcases hm with ⟨rfl, rfl⟩ | hm) | rcases hm with ⟨rfl, rfl⟩)
      all_goals simp [fieldsOut])
  · intro team_id image
    cases image <;> constructor <;> simp [partsOut]

/-- Witness for C1: `delete_team("abc", permanent=True)` stages the
field `permanent` exactly once with value `true`. -/
theorem optional_params_staged_iff_supplied_witness :
    ("permanent", some (Val.vb true)) ∈
      optJson (Call.teams_delete_team "abc" (some true)) ∧
    countKey (fieldsOut (exec (Teams.init "tok" "server")
      (Call.teams_delete_team "abc" (some true)))) "permanent" = 1 ∧
    lookupLast (fieldsOut (exec (Teams.init "tok" "server")
      (Call.teams_delete_team "abc" (some true)))) "permanent" =
      some (Val.vb true) := by
  have h := (optional_params_staged_iff_supplied (Teams.init "tok" "server")
    (Call.teams_delete_team "abc" (some true))).1 "permanent"
    (some (Val.vb true)) (by decide)
  exact ⟨by decide, h.1, h.2⟩

/-- C2: the three worked examples of the spec: `get_team("abc123")`
dispatches `GET {base}/teams/abc123` with no staged body fields;
`delete_team("abc123", permanent=True)` dispatches `DEL
{base}/teams/abc123` with exactly `permanent=true` staged;
`create_post(set_online=True, channel_id="c1", message="hi")` (other
parameters unset) dispatches `POST {base}/posts` with staged body
exactly `{"set_online": true, "channel_id": "c1", "message": "hi"}`. -/
theorem worked_examples_dispatch (tok burl : String) :
    (exec (Teams.init tok burl) (Call.teams_get_team "abc123")).2 =
      Except.ok ⟨burl ++ "/teams/abc123", "GET", false, false, [], [], []⟩ ∧
    (exec (Teams.init tok burl) (Call.teams_delete_team "abc123" (some true))).2 =
      Except.ok ⟨burl ++ "/teams/abc123", "DEL", true, false,
        [("permanent", Val.vb true)],
        [("Content-Type", "application/json"), ("Authorization", "Bearer " ++ tok)],
        []⟩ ∧
    (exec (Posts.init tok burl) (Call.posts_create_post true "c1" (some "hi")
        none none none none)).2 =
      Except.ok ⟨burl ++ "/posts", "POST", true, false,
        [("set_online", Val.vb true), ("channel_id", Val.vs "c1"),
         ("message", Val.vs "hi")],
        [("Content-Type", "application/json"), ("Authorization", "Bearer " ++ tok)],
        []⟩ := by
  have h : ("/teams" : String) ++ ("/" ++ "abc123") = "/teams/abc123" := rfl
  refine ⟨?_, ?_, ?_⟩
  · simp [Teams.init, Base.make]
    rw [String.append_assoc, String.append_assoc, h]
  · simp [Teams.init, Base.make]
    rw [String.append_assoc, String.append_assoc, h]
  · simp [Posts.init, Base.make]

/-- C3: no carry-over between calls on the same instance: the request
dispatched by any call is the same whether or not anything was staged
before (every method resets first), and in particular the request
dispatched after any previous call equals the request dispatched from
the original state. -/
theorem no_carry_over_between_calls :
    (∀ st c, (exec st c).2 = (exec st.reset c).2) ∧
    (∀ st prev c, (exec (exec st prev).1 c).2 = (exec st c).2) := by
  refine ⟨exec_reset_invariant, fun st prev c => ?_⟩
  rw [exec_reset_invariant ((exec st prev).1) c, reset_exec,
    ← exec_reset_invariant st c]

/-- C4: JSON mode and multipart mode are mutually exclusive per call:
starting from a state with no staged data, no call leaves both
JSON-mode staging (JSON fields or the `application/json` content type)
and multipart-mode staging (file parts or the `multipart/form-data`
content type) behind. -/
theorem json_multipart_mutually_exclusive (st : Base) (c : Call) :
    (jsonStagedB (exec st.reset c).1 && multiStagedB (exec st.reset c).1) = false := by
  cases c <;> simp [jsonStagedB, multiStagedB]

/-- C5: evaluating `delete_user_profile_image` at any input raises an
`AttributeError` (the source reads `self.self.api_url`), so no `DEL`
request to `{base}/users/{user_id}/image` is ever dispatched. -/
theorem delete_user_profile_image_attribute_error :
    (Uploads.delete_user_profile_image (Uploads.init "tok" "server") "u1").2 =
      Except.error "AttributeError: Uploads object has no attribute self" := rfl

/-- C6: evaluation of the three file-upload methods: `upload_plugin`
stages the plugin as a JSON body field and dispatches with `body=True`
and `files=False` (not multipart); `set_user_profile_image` stages
multipart data but raises a `TypeError` (it passes the unknown keyword
`file=True` to `request`) and dispatches nothing; only
`sets_team_icon` dispatches with the `files` flag set. -/
theorem file_upload_dispatch_modes :
    ((Plugins.upload_plugin (Plugins.init "tok" "server") "bundle.tar.gz"
        (some "true")).2 =
      Except.ok ⟨"server" ++ "/plugins" ++ "/", "POST", true, false,
        [("plugin", Val.vs "bundle.tar.gz"), ("force", Val.vs "true")],
        [("Content-Type", "application/json"),
         ("Authorization", "Bearer " ++ "tok")], []⟩) ∧
    ((Uploads.set_user_profile_image (Uploads.init "tok" "server") "u1"
        "avatar.png").2 =
      Except.error "TypeError: request got an unexpected keyword argument file") ∧
    ((Teams.sets_team_icon (Teams.init "tok" "server") "t1" (some "icon.png")).2 =
      Except.ok ⟨"server" ++ "/teams" ++ "/" ++ "t1" ++ "/image", "POST", false,
        true, [], [("Content-Type", "multipart/form-data")],
        [("file", "icon.png")]⟩) :=
  ⟨rfl, rfl, rfl⟩

/-- C7: every request dispatched by any public resource method carries
a `request_type` in `{GET, POST, PUT, PATCH, DEL}`, so the unknown-verb
error branch of `request` is unreachable from the resource methods. -/
theorem request_type_always_known_verb (st : Base) (c : Call) (r : Request)
    (h : (exec st c).2 = Except.ok r) :
    r.request_type ∈ (["GET", "POST", "PUT", "PATCH", "DEL"] : List String) := by
  cases c <;> simp_all <;> simp [← h]

/-- Witness for C7: `get_team("abc")` dispatches with verb `GET`. -/
theorem request_type_always_known_verb_witness :
    (exec (Teams.init "tok" "server") (Call.teams_get_team "abc")).2 =
      Except.ok ⟨"server" ++ "/teams" ++ "/" ++ "abc", "GET", false, false,
        [], [], []⟩ ∧
    ("GET" : String) ∈ (["GET", "POST", "PUT", "PATCH", "DEL"] : List String) :=
  ⟨rfl, request_type_always_known_verb (Teams.init "tok" "server")
    (Call.teams_get_team "abc")
    ⟨"server" ++ "/teams" ++ "/" ++ "abc", "GET", false, false, [], [], []⟩ rfl⟩

/-- C8: the credentials and URL configuration are frame-preserved: no
call changes `token`, `base_url` or `api_url`. -/
theorem credentials_frame_preserved (st : Base) (c : Call) :
    (exec st c).1.token = st.token ∧ (exec st c).1.base_url = st.base_url ∧
      (exec st c).1.api_url = st.api_url :=
  exec_preserves st c

set_option maxHeartbeats 1000000 in
/-- C9: no URL passed to `request` ever contains a query string: when
the stored base/api URLs and the path-segment arguments are free of
`?`, so is the dispatched URL; and the parameters documented as
query-string parameters (`page`, `per_page`, `include_total_count`,
`exclude_policy_constrained`, `permanent`) are staged into the JSON
body and dispatched with `body=True`, including on `GET`
(`get_teams`, `get_users`) and `DEL` (`delete_team`) calls. -/
theorem no_query_string_in_urls :
    (∀ st c, noQ st.base_url → noQ st.api_url → (∀ s ∈ urlArgs c, noQ s) →
      ∀ r, (exec st c).2 = Except.ok r → noQ r.url) ∧
    (∀ st page per_page itc epc,
      (exec st (Call.teams_get_teams (some page) (some per_page) (some itc)
          (some epc))).2 =
        Except.ok ⟨st.api_url, "GET", true, false,
          [("page", Val.vi page), ("per_page", Val.vi per_page),
           ("include_total_count", Val.vb itc),
           ("exclude_policy_constrained", Val.vb epc)],
          [("Content-Type", "application/json"),
           ("Authorization", "Bearer " ++ st.token)], []⟩) ∧
    (∀ st tid permanent,
      (exec st (Call.teams_delete_team tid (some permanent))).2 =
        Except.ok ⟨st.api_url ++ "/" ++ tid, "DEL", true, false,
          [("permanent", Val.vb permanent)],
          [("Content-Type", "application/json"),
           ("Authorization", "Bearer " ++ st.token)], []⟩) ∧
    (∀ st page per_page,
      (exec st (Call.users_get_users (some page) (some per_page) none none none
          none none none none none none none none none none none)).2 =
        Except.ok ⟨st.api_url, "GET", true, false,
          [("page", Val.vi page), ("per_page", Val.vi per_page)],
          [("Content-Type", "application/json"),
           ("Authorization", "Bearer " ++ st.token)], []⟩) := by
  refine ⟨fun st c hb ha hargs => ?_, fun st a b c d => by simp,
    fun st tid p => by simp, fun st a b => by simp⟩
  cases c <;> (intro r hr; simp at hr) <;> (try subst hr) <;>
    simp_all [urlArgs] <;> decide

/-- Witness for C9: for a fresh Teams instance on base URL `server`,
`get_team("abc")` dispatches to a URL with no query string. -/
theorem no_query_string_in_urls_witness :
    noQ ((Teams.init "tok" "server").base_url) ∧
    noQ ((Teams.init "tok" "server").api_url) ∧
    (∀ s ∈ urlArgs (Call.teams_get_team "abc"), noQ s) ∧
    noQ ("server" ++ "/teams" ++ "/" ++ "abc") :=
  ⟨by decide, by decide, by decide,
    no_query_string_in_urls.1 (Teams.init "tok" "server")
      (Call.teams_get_team "abc") (by decide) (by decide) (by decide)
      ⟨"server" ++ "/teams" ++ "/" ++ "abc", "GET", false, false, [], [], []⟩ rfl⟩

/-- C10: full-update methods stage their body fields unconditionally:
`update_team` stages all seven fields on every call, `update_user`
stages `id`, `email` and `username` on every call, and
`get_team_unread_for_user` stages `exclude_team` on every call, so an
explicit `None` argument stages a JSON `null` for the field rather
than omitting it. -/
theorem full_update_methods_stage_unconditionally :
    (∀ st tid id dn de cn ad iv aoi,
      fieldsOut (exec st (Call.teams_update_team tid id dn de cn ad iv aoi)) =
        [("id", Val.ofo id), ("display_name", Val.ofo dn),
         ("description", Val.ofo de), ("company_name", Val.ofo cn),
         ("allowed_domains", Val.ofo ad), ("invite_id", Val.ofo iv),
         ("allow_open_invite", Val.ofo aoi)]) ∧
    (∀ st uid id email username fn ln nn lo po tz pr np,
      (countKey (fieldsOut (exec st (Call.users_update_user uid id email username
          fn ln nn lo po tz pr np))) "id" = 1 ∧
        lookupLast (fieldsOut (exec st (Call.users_update_user uid id email
          username fn ln nn lo po tz pr np))) "id" = some (Val.ofo id)) ∧
      (countKey (fieldsOut (exec st (Call.users_update_user uid id email username
          fn ln nn lo po tz pr np))) "email" = 1 ∧
        lookupLast (fieldsOut (exec st (Call.users_update_user uid id email
          username fn ln nn lo po tz pr np))) "email" = some (Val.ofo email)) ∧
      (countKey (fieldsOut (exec st (Call.users_update_user uid id email username
          fn ln nn lo po tz pr np))) "username" = 1 ∧
        lookupLast (fieldsOut (exec st (Call.users_update_user uid id email
          username fn ln nn lo po tz pr np))) "username" =
          some (Val.ofo username))) ∧
    (∀ st uid et ict,
      countKey (fieldsOut (exec st (Call.teams_get_team_unread_for_user uid et
          ict))) "exclude_team" = 1 ∧
      lookupLast (fieldsOut (exec st (Call.teams_get_team_unread_for_user uid et
          ict))) "exclude_team" = some (Val.ofo et)) ∧
    (∀ st tid,
      lookupLast (fieldsOut (exec st (Call.teams_update_team tid none none none
          none none none none))) "id" = some Val.vnull) := by
  refine ⟨fun st tid a b c d e f g => by simp [fieldsOut],
    fun st uid id email username fn ln nn lo po tz pr np =>
      ⟨⟨by simp [fieldsOut], by simp [fieldsOut]⟩,
       ⟨by simp [fieldsOut], by simp [fieldsOut]⟩,
       ⟨by simp [fieldsOut], by simp [fieldsOut]⟩⟩,
    fun st uid et ict => ⟨by simp [fieldsOut], by simp [fieldsOut]⟩,
    fun st tid => by simp [fieldsOut, Val.ofo]⟩
